import Mathlib

/-!
Verification development for the runtime type-inspector core
(`type-inspector.ts`): the `TypeInfo` tree model, the deep-resolution walk
`resolveDeepestType`, the tree formatter `printTypeTree`, and the structural
assignability engine `isAssignableTo` with its helper
`areParametersCompatible`.

Modelling conventions:
* a TypeScript `TypeInfo | undefined` becomes `Option TypeInfo`;
* the string-keyed `Record<string, TypeInfo>` property maps become
  association lists `List (String × TypeInfo)` (the data model guarantees
  unique keys; `properties[key]` becomes `List.lookup`);
* the `kind` discriminator is reified as the function `TypeInfo.kind`
  returning the exact kind strings, so that kind-equality dispatch in
  `isAssignableTo` is string equality as in the source;
* JavaScript `Array.prototype.some` / `every` over recursive calls are
  written as named mutually recursive list walkers with identical
  semantics, which keeps the well-founded recursion transparent.
-/

/-- The tag of a `Primitive` node: `"string" | "number" | "boolean" |
"bigint" | "symbol" | "undefined" | "null"`. -/
inductive PrimTag where
| string
| number
| boolean
| bigint
| symbol
| undefined
| null
deriving DecidableEq

/-- The runtime value stored in a `Literal` node: `string | number | boolean`.
(Numeric literals are modelled as integers; no claim depends on
floating-point behaviour.) -/
inductive LitValue where
| str (s : String)
| num (n : Int)
| bool (b : Bool)
deriving DecidableEq

/-- An entry of an `Enum` node's value map: `string | number`. -/
inductive EnumVal where
| str (s : String)
| num (n : Int)
deriving DecidableEq

/-- The text of a `Primitive` node's `type` field. -/
def PrimTag.toStr : PrimTag → String
| .string => "string"
| .number => "number"
| .boolean => "boolean"
| .bigint => "bigint"
| .symbol => "symbol"
| .undefined => "undefined"
| .null => "null"

/-- The JavaScript `typeof` tag of a literal value (always one of
`"string"`, `"number"`, `"boolean"` for the values a `Literal` node can
hold). -/
def LitValue.typeofTag : LitValue → String
| .str _ => "string"
| .num _ => "number"
| .bool _ => "boolean"

/-- The `TypeInfo` tagged union from `type-inspector.ts`, one constructor
per `kind` string. -/
inductive TypeInfo where
| Simple (type : String)
| Primitive (type : PrimTag)
| Array (inner : TypeInfo)
| ReadonlyArray (inner : TypeInfo)
| Set (inner : TypeInfo)
| Promise (inner : TypeInfo)
| PromiseLike (inner : TypeInfo)
| Observable (inner : TypeInfo)
| Map (key : TypeInfo) (value : TypeInfo)
| Record (key : TypeInfo) (value : TypeInfo)
| Union (types : List TypeInfo)
| Intersection (types : List TypeInfo)
| Optional (inner : TypeInfo)
| Nullable (inner : TypeInfo)
| Function (parameters : List TypeInfo) (returnType : TypeInfo)
| Class (name : String) (ctor : TypeInfo) (methods : List (String × TypeInfo)) (properties : List (String × TypeInfo))
| Interface (name : String) (properties : List (String × TypeInfo))
| Generic (name : String) (typeParameters : List TypeInfo)
| Literal (value : LitValue)
| Enum (name : String) (values : List (String × EnumVal))
| Tuple (elements : List TypeInfo)
| Object (properties : List (String × TypeInfo))
| IndexSignature (keyType : TypeInfo) (valueType : TypeInfo)
| Conditional (checkType : TypeInfo) (extendsType : TypeInfo) (trueType : TypeInfo) (falseType : TypeInfo)
| Mapped (keyType : TypeInfo) (valueType : TypeInfo)
| TemplateLiteral (parts : List String) (types : List TypeInfo)
| unknown

/-- The `kind` discriminator string of a node, exactly as in the source. -/
def TypeInfo.kind : TypeInfo → String
| .Simple _ => "Simple"
| .Primitive _ => "Primitive"
| .Array _ => "Array"
| .ReadonlyArray _ => "ReadonlyArray"
| .Set _ => "Set"
| .Promise _ => "Promise"
| .PromiseLike _ => "PromiseLike"
| .Observable _ => "Observable"
| .Map _ _ => "Map"
| .Record _ _ => "Record"
| .Union _ => "Union"
| .Intersection _ => "Intersection"
| .Optional _ => "Optional"
| .Nullable _ => "Nullable"
| .Function _ _ => "Function"
| .Class _ _ _ _ => "Class"
| .Interface _ _ => "Interface"
| .Generic _ _ => "Generic"
| .Literal _ => "Literal"
| .Enum _ _ => "Enum"
| .Tuple _ => "Tuple"
| .Object _ => "Object"
| .IndexSignature _ _ => "IndexSignature"
| .Conditional _ _ _ _ => "Conditional"
| .Mapped _ _ => "Mapped"
| .TemplateLiteral _ _ => "TemplateLiteral"
| .unknown => "unknown"

/-- The Nullable cross-kind rule's null test: target is a `Union`
containing a `Primitive` member tagged `null`
(`typeInfo2.types.some(t => t.kind === "Primitive" && t.type === "null")`). -/
def hasNullMember : TypeInfo → Bool
| .Union ts => ts.any fun x =>
    match x with
    | .Primitive p => p == PrimTag.null
    | _ => false
| _ => false

mutual

/-- `TypeInspector.isAssignableTo(typeInfo1?, typeInfo2?)` on two present
arguments: kind-equality dispatch into the same-kind structural rules,
otherwise the ordered cross-kind cascade. -/
def assignCore (a b : TypeInfo) : Bool :=
  if a.kind == b.kind then sameKindAssign a b else crossKindAssign a b
termination_by (sizeOf a + sizeOf b, 1)
decreasing_by
  all_goals simp_wf
  all_goals exact Prod.Lex.right _ (by omega)

/-- The same-kind switch (lines 428-469): kind-specific structural check,
`true` by default for kind pairs without a listed rule. -/
def sameKindAssign (a b : TypeInfo) : Bool :=
  match a, b with
  | .Primitive t1, .Primitive t2 => t1 == t2
  | .Literal v1, .Literal v2 => v1 == v2
  | .Union ts1, .Union ts2 => anyTargetCovered ts1 ts2
  | .Intersection ts1, .Intersection ts2 => allTargetsCovered ts1 ts2
  | .Array i1, .Array i2 => assignCore i1 i2
  | .ReadonlyArray i1, .ReadonlyArray i2 => assignCore i1 i2
  | .Set i1, .Set i2 => assignCore i1 i2
  | .Map k1 v1, .Map k2 v2 => assignCore k1 k2 && assignCore v1 v2
  | .Record k1 v1, .Record k2 v2 => assignCore k1 k2 && assignCore v1 v2
  | .Promise i1, .Promise i2 => assignCore i1 i2
  | .PromiseLike i1, .PromiseLike i2 => assignCore i1 i2
  | .Function ps1 r1, .Function ps2 r2 =>
      assignCore r1 r2 && areParametersCompatible ps1 ps2
  | .Tuple es1, .Tuple es2 =>
      es1.length == es2.length && allAssign2 es1 es2
  | .Object props1, .Object props2 => propsAssign props1 props2
  | _, _ => true
termination_by (sizeOf a + sizeOf b, 0)
decreasing_by
  all_goals simp_wf
  all_goals exact Prod.Lex.left _ _ (by omega)

/-- The cross-kind cascade (lines 472-515), first matching rule wins,
`false` when none applies. -/
def crossKindAssign (a b : TypeInfo) : Bool :=
  match a, b with
  | .Optional inner, b2 => assignCore inner b2
  | .Nullable inner, b2 => assignCore inner b2 || hasNullMember b2
  | .Array i1, .Array i2 => assignCore i1 i2
  | .Set i1, .Set i2 => assignCore i1 i2
  | .Promise i1, .Promise i2 => assignCore i1 i2
  | a2, .Union ts => anyUnionMember a2 ts
  | .Intersection ts, b2 => allIntersectionMembers ts b2
  | .Literal v, .Primitive p => v.typeofTag == p.toStr
  | _, _ => false
termination_by (sizeOf a + sizeOf b, 0)
decreasing_by
  all_goals simp_wf
  all_goals exact Prod.Lex.left _ _ (by omega)

/-- `sources.some(s => isAssignableTo(s, t))`. -/
def anyAssignFrom (ss : List TypeInfo) (t : TypeInfo) : Bool :=
  match ss with
  | [] => false
  | s :: rest => assignCore s t || anyAssignFrom rest t
termination_by (sizeOf ss + sizeOf t, 0)
decreasing_by
  all_goals simp_wf
  all_goals exact Prod.Lex.left _ _ (by omega)

/-- Same-kind Union rule:
`target.types.some(t => source.types.some(s => isAssignableTo(s, t)))`. -/
def anyTargetCovered (ss : List TypeInfo) (ts : List TypeInfo) : Bool :=
  match ts with
  | [] => false
  | t :: rest => anyAssignFrom ss t || anyTargetCovered ss rest
termination_by (sizeOf ss + sizeOf ts, 0)
decreasing_by
  all_goals simp_wf
  all_goals exact Prod.Lex.left _ _ (by omega)

/-- Same-kind Intersection rule:
`target.types.every(t => source.types.some(s => isAssignableTo(s, t)))`. -/
def allTargetsCovered (ss : List TypeInfo) (ts : List TypeInfo) : Bool :=
  match ts with
  | [] => true
  | t :: rest => anyAssignFrom ss t && allTargetsCovered ss rest
termination_by (sizeOf ss + sizeOf ts, 0)
decreasing_by
  all_goals simp_wf
  all_goals exact Prod.Lex.left _ _ (by omega)

/-- Cross-kind Union-target rule:
`target.types.some(t => isAssignableTo(source, t))`. -/
def anyUnionMember (a : TypeInfo) (ts : List TypeInfo) : Bool :=
  match ts with
  | [] => false
  | t :: rest => assignCore a t || anyUnionMember a rest
termination_by (sizeOf a + sizeOf ts, 0)
decreasing_by
  all_goals simp_wf
  all_goals exact Prod.Lex.left _ _ (by omega)

/-- Cross-kind Intersection-source rule:
`source.types.every(t => isAssignableTo(t, target))`. -/
def allIntersectionMembers (ss : List TypeInfo) (b : TypeInfo) : Bool :=
  match ss with
  | [] => true
  | s :: rest => assignCore s b && allIntersectionMembers rest b
termination_by (sizeOf ss + sizeOf b, 0)
decreasing_by
  all_goals simp_wf
  all_goals exact Prod.Lex.left _ _ (by omega)

/-- Tuple rule body:
`t1.elements.every((elem, i) => isAssignableTo(elem, t2.elements[i]))`
(an out-of-range index yields `undefined`, and assignability to or from an
absent node is `false`). -/
def allAssign2 (es1 es2 : List TypeInfo) : Bool :=
  match es1, es2 with
  | [], _ => true
  | _ :: _, [] => false
  | e1 :: r1, e2 :: r2 => assignCore e1 e2 && allAssign2 r1 r2
termination_by (sizeOf es1 + sizeOf es2, 0)
decreasing_by
  all_goals simp_wf
  all_goals exact Prod.Lex.left _ _ (by omega)

/-- `params1.every((param, i) => isAssignableTo(params2[i], param))` —
the contravariant parameter walk. -/
def allAssignContra (ps1 ps2 : List TypeInfo) : Bool :=
  match ps1, ps2 with
  | [], _ => true
  | _ :: _, [] => false
  | p1 :: r1, p2 :: r2 => assignCore p2 p1 && allAssignContra r1 r2
termination_by (sizeOf ps1 + sizeOf ps2, 0)
decreasing_by
  all_goals simp_wf
  all_goals exact Prod.Lex.left _ _ (by omega)

/-- `TypeInspector.areParametersCompatible`: equal arity, then the
contravariant elementwise check. -/
def areParametersCompatible (ps1 ps2 : List TypeInfo) : Bool :=
  ps1.length == ps2.length && allAssignContra ps1 ps2
termination_by (sizeOf ps1 + sizeOf ps2 + 1, 0)
decreasing_by
  all_goals simp_wf
  all_goals exact Prod.Lex.left _ _ (by omega)

/-- `source.properties[key]` lookup fused with the recursive call:
a key absent from the source map gives `isAssignableTo(undefined, v2)`,
which is `false`. -/
def lookupAssign (p1 : List (String × TypeInfo)) (k : String) (v2 : TypeInfo) : Bool :=
  match p1 with
  | [] => false
  | (k1, v1) :: rest => if k == k1 then assignCore v1 v2 else lookupAssign rest k v2
termination_by (sizeOf p1 + sizeOf v2, 0)
decreasing_by
  all_goals simp_wf
  all_goals exact Prod.Lex.left _ _ (by omega)

/-- Object rule: `Object.keys(target.properties).every(key =>
isAssignableTo(source.properties[key], target.properties[key]))`.
Property maps have unique keys, so walking the target's entries is the
walk over `Object.keys` of the target. -/
def propsAssign (p1 p2 : List (String × TypeInfo)) : Bool :=
  match p2 with
  | [] => true
  | (k, v2) :: rest => lookupAssign p1 k v2 && propsAssign p1 rest
termination_by (sizeOf p1 + sizeOf p2, 0)
decreasing_by
  all_goals simp_wf
  all_goals exact Prod.Lex.left _ _ (by omega)

end

/-- `TypeInspector.isAssignableTo`: `false` immediately when either
argument is absent. -/
def isAssignableTo : Option TypeInfo → Option TypeInfo → Bool
| some a, some b => assignCore a b
| _, _ => false

/-- `typeInfo.types.find(t => t.kind !== "unknown")` succeeds, i.e. the
list has a member whose kind is not `"unknown"`. -/
def anyNonUnknown (ts : List TypeInfo) : Bool :=
  ts.any fun x => x.kind != "unknown"

mutual

/-- `TypeInspector.resolveDeepestType`: recursive descent to a
representative terminal node; absent input yields absent output.  An
out-of-range index access (`types[0]`, `elements[0]`, `types[length-1]` on
an empty list) yields `undefined` in the source and hence `none` here. -/
def resolveDeepestType : Option TypeInfo → Option TypeInfo
| none => none
| some t =>
  match t with
  | .Promise i | .PromiseLike i | .Array i | .ReadonlyArray i | .Set i | .Observable i =>
      resolveDeepestType (some i)
  | .Map _ v | .Record _ v => resolveDeepestType (some v)
  | .Optional i | .Nullable i => resolveDeepestType (some i)
  | .Union ts => resolveUnionList ts
  | .Intersection ts => resolveLast ts
  | .Function _ r => resolveDeepestType (some r)
  | .Generic _ [] => none
  | .Generic _ (tp :: _) => resolveDeepestType (some tp)
  | .Tuple [] => none
  | .Tuple (e :: _) => resolveDeepestType (some e)
  | .Conditional _ _ tt _ => resolveDeepestType (some tt)
  | .Mapped _ v => resolveDeepestType (some v)
  | .TemplateLiteral _ [] => none
  | .TemplateLiteral _ (x :: _) => resolveDeepestType (some x)
  | t2 => some t2
termination_by o => sizeOf o
decreasing_by
  all_goals simp_wf
  all_goals omega

/-- The Union case of `resolveDeepestType`: descend into the first member
whose kind is not `"unknown"`; when there is none, the result is the first
member unchanged (`typeInfo.types[0]`, hence `none` on an empty list). -/
def resolveUnionList : List TypeInfo → Option TypeInfo
| [] => none
| t :: rest =>
  if t.kind != "unknown" then resolveDeepestType (some t)
  else if anyNonUnknown rest then resolveUnionList rest
  else some t
termination_by ts => 1 + sizeOf ts
decreasing_by
  all_goals simp_wf
  all_goals omega

/-- The Intersection case of `resolveDeepestType`: descend into the last
member (`typeInfo.types[typeInfo.types.length - 1]`). -/
def resolveLast : List TypeInfo → Option TypeInfo
| [] => none
| [t] => resolveDeepestType (some t)
| _ :: rest => resolveLast rest
termination_by ts => 1 + sizeOf ts
decreasing_by
  all_goals simp_wf
  all_goals omega

end

/-- `"  ".repeat(depth)`: the indentation prefix of `printTypeTree`. -/
def indentPad (depth : Nat) : String :=
  String.join (List.replicate depth ("  "))

/-- Double-quote a string (the `JSON.stringify` image of the plain
identifier-like strings the formatter receives; escaping of special
characters inside the text is elided). -/
def jsQuote (s : String) : String :=
  "\"" ++ s ++ "\""

/-- `JSON.stringify` of a `Literal` node's value. -/
def jsonOfLit : LitValue → String
| .str s => jsQuote s
| .num n => toString n
| .bool b => if b then "true" else "false"

/-- One `"key":value` entry of `JSON.stringify` on an enum value map. -/
def jsonOfEnumEntry : String × EnumVal → String
| (k, .str s) => jsQuote k ++ ":" ++ jsQuote s
| (k, .num n) => jsQuote k ++ ":" ++ toString n

/-- `JSON.stringify` of an `Enum` node's `values` map. -/
def jsonOfEnumValues (vs : List (String × EnumVal)) : String :=
  "\x7b" ++ String.intercalate (",") (vs.map jsonOfEnumEntry) ++ "\x7d"

mutual

/-- `TypeInspector.printTypeTree(typeInfo?, depth = 0)`: the fully
indented recursive dump; every child of a composite node is rendered. -/
def printTypeTree : Option TypeInfo → Nat → String
| none, _ => "undefined"
| some t, depth =>
  match t with
  | .Simple ty =>
      indentPad depth ++ "\x7b kind: \"Simple\", type: \"" ++ ty ++ "\" \x7d"
  | .Primitive p =>
      indentPad depth ++ "\x7b kind: \"Primitive\", type: \"" ++ p.toStr ++ "\" \x7d"
  | .Array i | .ReadonlyArray i | .Set i | .Promise i | .PromiseLike i | .Observable i =>
      indentPad depth ++ "\x7b kind: \"" ++ t.kind ++ "\",\n" ++ indentPad depth ++ "  inner: \n" ++
        printTypeTree (some i) (depth + 2) ++ "\n" ++ indentPad depth ++ "\x7d"
  | .Map k v | .Record k v =>
      indentPad depth ++ "\x7b kind: \"" ++ t.kind ++ "\",\n" ++ indentPad depth ++ "  key: \n" ++
        printTypeTree (some k) (depth + 2) ++ ",\n" ++ indentPad depth ++ "  value: \n" ++
        printTypeTree (some v) (depth + 2) ++ "\n" ++ indentPad depth ++ "\x7d"
  | .Union ts =>
      indentPad depth ++ "\x7b kind: \"Union\",\n" ++ indentPad depth ++ "  types: [\n" ++
        printTreeList ts (depth + 2) ++ "\n" ++ indentPad depth ++ "  ]\n" ++ indentPad depth ++ "\x7d"
  | .Intersection ts =>
      indentPad depth ++ "\x7b kind: \"Intersection\",\n" ++ indentPad depth ++ "  types: [\n" ++
        printTreeList ts (depth + 2) ++ "\n" ++ indentPad depth ++ "  ]\n" ++ indentPad depth ++ "\x7d"
  | .Optional i =>
      indentPad depth ++ "\x7b kind: \"Optional\",\n" ++ indentPad depth ++ "  inner: \n" ++
        printTypeTree (some i) (depth + 2) ++ "\n" ++ indentPad depth ++ "\x7d"
  | .Nullable i =>
      indentPad depth ++ "\x7b kind: \"Nullable\",\n" ++ indentPad depth ++ "  inner: \n" ++
        printTypeTree (some i) (depth + 2) ++ "\n" ++ indentPad depth ++ "\x7d"
  | .Function ps r =>
      indentPad depth ++ "\x7b kind: \"Function\",\n" ++ indentPad depth ++ "  parameters: [\n" ++
        printTreeList ps (depth + 2) ++ "\n" ++ indentPad depth ++ "  ],\n" ++ indentPad depth ++
        "  returnType: \n" ++ printTypeTree (some r) (depth + 2) ++ "\n" ++ indentPad depth ++ "\x7d"
  | .Class n _ _ _ =>
      indentPad depth ++ "\x7b kind: \"Class\", name: \"" ++ n ++ "\" \x7d"
  | .Interface n _ =>
      indentPad depth ++ "\x7b kind: \"Interface\", name: \"" ++ n ++ "\" \x7d"
  | .Generic n tps =>
      indentPad depth ++ "\x7b kind: \"Generic\", name: \"" ++ n ++ "\", typeParameters: [\n" ++
        printTreeList tps (depth + 2) ++ "\n" ++ indentPad depth ++ "  ]\n" ++ indentPad depth ++ "\x7d"
  | .Literal v =>
      indentPad depth ++ "\x7b kind: \"Literal\", value: " ++ jsonOfLit v ++ " \x7d"
  | .Enum n vs =>
      indentPad depth ++ "\x7b kind: \"Enum\", name: \"" ++ n ++ "\", values: " ++ jsonOfEnumValues vs ++ " \x7d"
  | .Tuple es =>
      indentPad depth ++ "\x7b kind: \"Tuple\",\n" ++ indentPad depth ++ "  elements: [\n" ++
        printTreeList es (depth + 2) ++ "\n" ++ indentPad depth ++ "  ]\n" ++ indentPad depth ++ "\x7d"
  | .Object props =>
      indentPad depth ++ "\x7b kind: \"Object\",\n" ++ indentPad depth ++ "  properties: \x7b\n" ++
        printTreeProps props depth ++ "\n" ++ indentPad depth ++ "  \x7d\n" ++ indentPad depth ++ "\x7d"
  | .IndexSignature k v =>
      indentPad depth ++ "\x7b kind: \"IndexSignature\",\n" ++ indentPad depth ++ "  keyType: \n" ++
        printTypeTree (some k) (depth + 2) ++ ",\n" ++ indentPad depth ++ "  valueType: \n" ++
        printTypeTree (some v) (depth + 2) ++ "\n" ++ indentPad depth ++ "\x7d"
  | .Conditional c e tt f =>
      indentPad depth ++ "\x7b kind: \"Conditional\",\n" ++ indentPad depth ++ "  checkType: \n" ++
        printTypeTree (some c) (depth + 2) ++ ",\n" ++ indentPad depth ++ "  extendsType: \n" ++
        printTypeTree (some e) (depth + 2) ++ ",\n" ++ indentPad depth ++ "  trueType: \n" ++
        printTypeTree (some tt) (depth + 2) ++ ",\n" ++ indentPad depth ++ "  falseType: \n" ++
        printTypeTree (some f) (depth + 2) ++ "\n" ++ indentPad depth ++ "\x7d"
  | .Mapped k v =>
      indentPad depth ++ "\x7b kind: \"Mapped\",\n" ++ indentPad depth ++ "  keyType: \n" ++
        printTypeTree (some k) (depth + 2) ++ ",\n" ++ indentPad depth ++ "  valueType: \n" ++
        printTypeTree (some v) (depth + 2) ++ "\n" ++ indentPad depth ++ "\x7d"
  | .TemplateLiteral parts ts =>
      indentPad depth ++ "\x7b kind: \"TemplateLiteral\",\n" ++ indentPad depth ++ "  parts: [" ++
        String.intercalate (", ") (parts.map jsQuote) ++ "],\n" ++ indentPad depth ++ "  types: [\n" ++
        printTreeList ts (depth + 2) ++ "\n" ++ indentPad depth ++ "  ]\n" ++ indentPad depth ++ "\x7d"
  | .unknown =>
      indentPad depth ++ "\x7b kind: \"unknown\" \x7d"
termination_by o _ => sizeOf o
decreasing_by
  all_goals simp_wf
  all_goals omega

/-- `children.map(t => printTypeTree(t, d)).join(',\n')`. -/
def printTreeList : List TypeInfo → Nat → String
| [], _ => ""
| [t], d => printTypeTree (some t) d
| t :: rest, d => printTypeTree (some t) d ++ ",\n" ++ printTreeList rest d
termination_by l _ => 1 + sizeOf l
decreasing_by
  all_goals simp_wf
  all_goals omega

/-- `Object.entries(props).map(([key, value]) => pad + "    " + key + ": "
+ printTypeTree(value, depth + 2)).join(',\n')`. -/
def printTreeProps : List (String × TypeInfo) → Nat → String
| [], _ => ""
| [(k, v)], d => indentPad d ++ "    " ++ k ++ ": " ++ printTypeTree (some v) (d + 2)
| (k, v) :: rest, d =>
    indentPad d ++ "    " ++ k ++ ": " ++ printTypeTree (some v) (d + 2) ++ ",\n" ++ printTreeProps rest d
termination_by l _ => 1 + sizeOf l
decreasing_by
  all_goals simp_wf
  all_goals omega

end

mutual

/-- Fuel-indexed mirror of `assignCore`: `fuel` bounds the depth of nested
recursive invocations of the kind dispatch; an exhausted budget yields the
sentinel `false`. -/
def assignCoreF : Nat → TypeInfo → TypeInfo → Bool
| 0, _, _ => false
| fuel + 1, a, b =>
    if a.kind == b.kind then sameKindAssignF fuel a b else crossKindAssignF fuel a b
termination_by fuel a b => (fuel, sizeOf a + sizeOf b, 1)
decreasing_by
  all_goals simp_wf
  all_goals exact Prod.Lex.left _ _ (by omega)

/-- Fuel-indexed mirror of `sameKindAssign`. -/
def sameKindAssignF (fuel : Nat) (a b : TypeInfo) : Bool :=
  match a, b with
  | .Primitive t1, .Primitive t2 => t1 == t2
  | .Literal v1, .Literal v2 => v1 == v2
  | .Union ts1, .Union ts2 => anyTargetCoveredF fuel ts1 ts2
  | .Intersection ts1, .Intersection ts2 => allTargetsCoveredF fuel ts1 ts2
  | .Array i1, .Array i2 => assignCoreF fuel i1 i2
  | .ReadonlyArray i1, .ReadonlyArray i2 => assignCoreF fuel i1 i2
  | .Set i1, .Set i2 => assignCoreF fuel i1 i2
  | .Map k1 v1, .Map k2 v2 => assignCoreF fuel k1 k2 && assignCoreF fuel v1 v2
  | .Record k1 v1, .Record k2 v2 => assignCoreF fuel k1 k2 && assignCoreF fuel v1 v2
  | .Promise i1, .Promise i2 => assignCoreF fuel i1 i2
  | .PromiseLike i1, .PromiseLike i2 => assignCoreF fuel i1 i2
  | .Function ps1 r1, .Function ps2 r2 =>
      assignCoreF fuel r1 r2 && areParametersCompatibleF fuel ps1 ps2
  | .Tuple es1, .Tuple es2 =>
      es1.length == es2.length && allAssign2F fuel es1 es2
  | .Object props1, .Object props2 => propsAssignF fuel props1 props2
  | _, _ => true
termination_by (fuel, sizeOf a + sizeOf b, 0)
decreasing_by
  all_goals simp_wf
  all_goals exact Prod.Lex.right _ (Prod.Lex.left _ _ (by omega))

/-- Fuel-indexed mirror of `crossKindAssign`. -/
def crossKindAssignF (fuel : Nat) (a b : TypeInfo) : Bool :=
  match a, b with
  | .Optional inner, b2 => assignCoreF fuel inner b2
  | .Nullable inner, b2 => assignCoreF fuel inner b2 || hasNullMember b2
  | .Array i1, .Array i2 => assignCoreF fuel i1 i2
  | .Set i1, .Set i2 => assignCoreF fuel i1 i2
  | .Promise i1, .Promise i2 => assignCoreF fuel i1 i2
  | a2, .Union ts => anyUnionMemberF fuel a2 ts
  | .Intersection ts, b2 => allIntersectionMembersF fuel ts b2
  | .Literal v, .Primitive p => v.typeofTag == p.toStr
  | _, _ => false
termination_by (fuel, sizeOf a + sizeOf b, 0)
decreasing_by
  all_goals simp_wf
  all_goals exact Prod.Lex.right _ (Prod.Lex.left _ _ (by omega))

/-- Fuel-indexed mirror of `anyAssignFrom`. -/
def anyAssignFromF (fuel : Nat) (ss : List TypeInfo) (t : TypeInfo) : Bool :=
  match ss with
  | [] => false
  | s :: rest => assignCoreF fuel s t || anyAssignFromF fuel rest t
termination_by (fuel, sizeOf ss + sizeOf t, 0)
decreasing_by
  all_goals simp_wf
  all_goals exact Prod.Lex.right _ (Prod.Lex.left _ _ (by omega))

/-- Fuel-indexed mirror of `anyTargetCovered`. -/
def anyTargetCoveredF (fuel : Nat) (ss : List TypeInfo) (ts : List TypeInfo) : Bool :=
  match ts with
  | [] => false
  | t :: rest => anyAssignFromF fuel ss t || anyTargetCoveredF fuel ss rest
termination_by (fuel, sizeOf ss + sizeOf ts, 0)
decreasing_by
  all_goals simp_wf
  all_goals exact Prod.Lex.right _ (Prod.Lex.left _ _ (by omega))

/-- Fuel-indexed mirror of `allTargetsCovered`. -/
def allTargetsCoveredF (fuel : Nat) (ss : List TypeInfo) (ts : List TypeInfo) : Bool :=
  match ts with
  | [] => true
  | t :: rest => anyAssignFromF fuel ss t && allTargetsCoveredF fuel ss rest
termination_by (fuel, sizeOf ss + sizeOf ts, 0)
decreasing_by
  all_goals simp_wf
  all_goals exact Prod.Lex.right _ (Prod.Lex.left _ _ (by omega))

/-- Fuel-indexed mirror of `anyUnionMember`. -/
def anyUnionMemberF (fuel : Nat) (a : TypeInfo) (ts : List TypeInfo) : Bool :=
  match ts with
  | [] => false
  | t :: rest => assignCoreF fuel a t || anyUnionMemberF fuel a rest
termination_by (fuel, sizeOf a + sizeOf ts, 0)
decreasing_by
  all_goals simp_wf
  all_goals exact Prod.Lex.right _ (Prod.Lex.left _ _ (by omega))

/-- Fuel-indexed mirror of `allIntersectionMembers`. -/
def allIntersectionMembersF (fuel : Nat) (ss : List TypeInfo) (b : TypeInfo) : Bool :=
  match ss with
  | [] => true
  | s :: rest => assignCoreF fuel s b && allIntersectionMembersF fuel rest b
termination_by (fuel, sizeOf ss + sizeOf b, 0)
decreasing_by
  all_goals simp_wf
  all_goals exact Prod.Lex.right _ (Prod.Lex.left _ _ (by omega))

/-- Fuel-indexed mirror of `allAssign2`. -/
def allAssign2F (fuel : Nat) (es1 es2 : List TypeInfo) : Bool :=
  match es1, es2 with
  | [], _ => true
  | _ :: _, [] => false
  | e1 :: r1, e2 :: r2 => assignCoreF fuel e1 e2 && allAssign2F fuel r1 r2
termination_by (fuel, sizeOf es1 + sizeOf es2, 0)
decreasing_by
  all_goals simp_wf
  all_goals exact Prod.Lex.right _ (Prod.Lex.left _ _ (by omega))

/-- Fuel-indexed mirror of `allAssignContra`. -/
def allAssignContraF (fuel : Nat) (ps1 ps2 : List TypeInfo) : Bool :=
  match ps1, ps2 with
  | [], _ => true
  | _ :: _, [] => false
  | p1 :: r1, p2 :: r2 => assignCoreF fuel p2 p1 && allAssignContraF fuel r1 r2
termination_by (fuel, sizeOf ps1 + sizeOf ps2, 0)
decreasing_by
  all_goals simp_wf
  all_goals exact Prod.Lex.right _ (Prod.Lex.left _ _ (by omega))

/-- Fuel-indexed mirror of `areParametersCompatible`. -/
def areParametersCompatibleF (fuel : Nat) (ps1 ps2 : List TypeInfo) : Bool :=
  ps1.length == ps2.length && allAssignContraF fuel ps1 ps2
termination_by (fuel, sizeOf ps1 + sizeOf ps2 + 1, 0)
decreasing_by
  all_goals simp_wf
  all_goals exact Prod.Lex.right _ (Prod.Lex.left _ _ (by omega))

/-- Fuel-indexed mirror of `lookupAssign`. -/
def lookupAssignF (fuel : Nat) (p1 : List (String × TypeInfo)) (k : String) (v2 : TypeInfo) : Bool :=
  match p1 with
  | [] => false
  | (k1, v1) :: rest => if k == k1 then assignCoreF fuel v1 v2 else lookupAssignF fuel rest k v2
termination_by (fuel, sizeOf p1 + sizeOf v2, 0)
decreasing_by
  all_goals simp_wf
  all_goals exact Prod.Lex.right _ (Prod.Lex.left _ _ (by omega))

/-- Fuel-indexed mirror of `propsAssign`. -/
def propsAssignF (fuel : Nat) (p1 p2 : List (String × TypeInfo)) : Bool :=
  match p2 with
  | [] => true
  | (k, v2) :: rest => lookupAssignF fuel p1 k v2 && propsAssignF fuel p1 rest
termination_by (fuel, sizeOf p1 + sizeOf p2, 0)
decreasing_by
  all_goals simp_wf
  all_goals exact Prod.Lex.right _ (Prod.Lex.left _ _ (by omega))

end

/-- Fuel-indexed mirror of `resolveDeepestType`: one unit of fuel per
recursive descent; an exhausted budget yields the sentinel `none`. -/
def resolveDeepestTypeF : Nat → Option TypeInfo → Option TypeInfo
| _, none => none
| 0, some _ => none
| fuel + 1, some t =>
  match t with
  | .Promise i | .PromiseLike i | .Array i | .ReadonlyArray i | .Set i | .Observable i =>
      resolveDeepestTypeF fuel (some i)
  | .Map _ v | .Record _ v => resolveDeepestTypeF fuel (some v)
  | .Optional i | .Nullable i => resolveDeepestTypeF fuel (some i)
  | .Union ts =>
      match ts.find? (fun x => x.kind != "unknown") with
      | some nt => resolveDeepestTypeF fuel (some nt)
      | none => ts.head?
  | .Intersection ts => resolveDeepestTypeF fuel ts.getLast?
  | .Function _ r => resolveDeepestTypeF fuel (some r)
  | .Generic _ tps => resolveDeepestTypeF fuel tps.head?
  | .Tuple es => resolveDeepestTypeF fuel es.head?
  | .Conditional _ _ tt _ => resolveDeepestTypeF fuel (some tt)
  | .Mapped _ v => resolveDeepestTypeF fuel (some v)
  | .TemplateLiteral _ ts => resolveDeepestTypeF fuel ts.head?
  | t2 => some t2

mutual

/-- Fuel-indexed mirror of `printTypeTree`: one unit of fuel per recursive
descent; an exhausted budget yields the sentinel `""`. -/
def printTypeTreeF : Nat → Option TypeInfo → Nat → String
| _, none, _ => "undefined"
| 0, some _, _ => ""
| fuel + 1, some t, depth =>
  match t with
  | .Simple ty =>
      indentPad depth ++ "\x7b kind: \"Simple\", type: \"" ++ ty ++ "\" \x7d"
  | .Primitive p =>
      indentPad depth ++ "\x7b kind: \"Primitive\", type: \"" ++ p.toStr ++ "\" \x7d"
  | .Array i | .ReadonlyArray i | .Set i | .Promise i | .PromiseLike i | .Observable i =>
      indentPad depth ++ "\x7b kind: \"" ++ t.kind ++ "\",\n" ++ indentPad depth ++ "  inner: \n" ++
        printTypeTreeF fuel (some i) (depth + 2) ++ "\n" ++ indentPad depth ++ "\x7d"
  | .Map k v | .Record k v =>
      indentPad depth ++ "\x7b kind: \"" ++ t.kind ++ "\",\n" ++ indentPad depth ++ "  key: \n" ++
        printTypeTreeF fuel (some k) (depth + 2) ++ ",\n" ++ indentPad depth ++ "  value: \n" ++
        printTypeTreeF fuel (some v) (depth + 2) ++ "\n" ++ indentPad depth ++ "\x7d"
  | .Union ts =>
      indentPad depth ++ "\x7b kind: \"Union\",\n" ++ indentPad depth ++ "  types: [\n" ++
        printTreeListF fuel ts (depth + 2) ++ "\n" ++ indentPad depth ++ "  ]\n" ++ indentPad depth ++ "\x7d"
  | .Intersection ts =>
      indentPad depth ++ "\x7b kind: \"Intersection\",\n" ++ indentPad depth ++ "  types: [\n" ++
        printTreeListF fuel ts (depth + 2) ++ "\n" ++ indentPad depth ++ "  ]\n" ++ indentPad depth ++ "\x7d"
  | .Optional i =>
      indentPad depth ++ "\x7b kind: \"Optional\",\n" ++ indentPad depth ++ "  inner: \n" ++
        printTypeTreeF fuel (some i) (depth + 2) ++ "\n" ++ indentPad depth ++ "\x7d"
  | .Nullable i =>
      indentPad depth ++ "\x7b kind: \"Nullable\",\n" ++ indentPad depth ++ "  inner: \n" ++
        printTypeTreeF fuel (some i) (depth + 2) ++ "\n" ++ indentPad depth ++ "\x7d"
  | .Function ps r =>
      indentPad depth ++ "\x7b kind: \"Function\",\n" ++ indentPad depth ++ "  parameters: [\n" ++
        printTreeListF fuel ps (depth + 2) ++ "\n" ++ indentPad depth ++ "  ],\n" ++ indentPad depth ++
        "  returnType: \n" ++ printTypeTreeF fuel (some r) (depth + 2) ++ "\n" ++ indentPad depth ++ "\x7d"
  | .Class n _ _ _ =>
      indentPad depth ++ "\x7b kind: \"Class\", name: \"" ++ n ++ "\" \x7d"
  | .Interface n _ =>
      indentPad depth ++ "\x7b kind: \"Interface\", name: \"" ++ n ++ "\" \x7d"
  | .Generic n tps =>
      indentPad depth ++ "\x7b kind: \"Generic\", name: \"" ++ n ++ "\", typeParameters: [\n" ++
        printTreeListF fuel tps (depth + 2) ++ "\n" ++ indentPad depth ++ "  ]\n" ++ indentPad depth ++ "\x7d"
  | .Literal v =>
      indentPad depth ++ "\x7b kind: \"Literal\", value: " ++ jsonOfLit v ++ " \x7d"
  | .Enum n vs =>
      indentPad depth ++ "\x7b kind: \"Enum\", name: \"" ++ n ++ "\", values: " ++ jsonOfEnumValues vs ++ " \x7d"
  | .Tuple es =>
      indentPad depth ++ "\x7b kind: \"Tuple\",\n" ++ indentPad depth ++ "  elements: [\n" ++
        printTreeListF fuel es (depth + 2) ++ "\n" ++ indentPad depth ++ "  ]\n" ++ indentPad depth ++ "\x7d"
  | .Object props =>
      indentPad depth ++ "\x7b kind: \"Object\",\n" ++ indentPad depth ++ "  properties: \x7b\n" ++
        printTreePropsF fuel props depth ++ "\n" ++ indentPad depth ++ "  \x7d\n" ++ indentPad depth ++ "\x7d"
  | .IndexSignature k v =>
      indentPad depth ++ "\x7b kind: \"IndexSignature\",\n" ++ indentPad depth ++ "  keyType: \n" ++
        printTypeTreeF fuel (some k) (depth + 2) ++ ",\n" ++ indentPad depth ++ "  valueType: \n" ++
        printTypeTreeF fuel (some v) (depth + 2) ++ "\n" ++ indentPad depth ++ "\x7d"
  | .Conditional c e tt f =>
      indentPad depth ++ "\x7b kind: \"Conditional\",\n" ++ indentPad depth ++ "  checkType: \n" ++
        printTypeTreeF fuel (some c) (depth + 2) ++ ",\n" ++ indentPad depth ++ "  extendsType: \n" ++
        printTypeTreeF fuel (some e) (depth + 2) ++ ",\n" ++ indentPad depth ++ "  trueType: \n" ++
        printTypeTreeF fuel (some tt) (depth + 2) ++ ",\n" ++ indentPad depth ++ "  falseType: \n" ++
        printTypeTreeF fuel (some f) (depth + 2) ++ "\n" ++ indentPad depth ++ "\x7d"
  | .Mapped k v =>
      indentPad depth ++ "\x7b kind: \"Mapped\",\n" ++ indentPad depth ++ "  keyType: \n" ++
        printTypeTreeF fuel (some k) (depth + 2) ++ ",\n" ++ indentPad depth ++ "  valueType: \n" ++
        printTypeTreeF fuel (some v) (depth + 2) ++ "\n" ++ indentPad depth ++ "\x7d"
  | .TemplateLiteral parts ts =>
      indentPad depth ++ "\x7b kind: \"TemplateLiteral\",\n" ++ indentPad depth ++ "  parts: [" ++
        String.intercalate (", ") (parts.map jsQuote) ++ "],\n" ++ indentPad depth ++ "  types: [\n" ++
        printTreeListF fuel ts (depth + 2) ++ "\n" ++ indentPad depth ++ "  ]\n" ++ indentPad depth ++ "\x7d"
  | .unknown =>
      indentPad depth ++ "\x7b kind: \"unknown\" \x7d"
termination_by fuel o _ => (fuel, sizeOf o)
decreasing_by
  all_goals simp_wf
  all_goals omega

/-- Fuel-indexed mirror of `printTreeList`. -/
def printTreeListF : Nat → List TypeInfo → Nat → String
| _, [], _ => ""
| fuel, [t], d => printTypeTreeF fuel (some t) d
| fuel, t :: rest, d => printTypeTreeF fuel (some t) d ++ ",\n" ++ printTreeListF fuel rest d
termination_by fuel l _ => (fuel, 1 + sizeOf l)
decreasing_by
  all_goals simp_wf
  all_goals omega

/-- Fuel-indexed mirror of `printTreeProps`. -/
def printTreePropsF : Nat → List (String × TypeInfo) → Nat → String
| _, [], _ => ""
| fuel, [(k, v)], d => indentPad d ++ "    " ++ k ++ ": " ++ printTypeTreeF fuel (some v) (d + 2)
| fuel, (k, v) :: rest, d =>
    indentPad d ++ "    " ++ k ++ ": " ++ printTypeTreeF fuel (some v) (d + 2) ++ ",\n" ++ printTreePropsF fuel rest d
termination_by fuel l _ => (fuel, 1 + sizeOf l)
decreasing_by
  all_goals simp_wf
  all_goals omega

end

mutual

/-- The depth of a type tree: `1` for a leaf, `1 +` the maximal depth of a
child otherwise. -/
def depthTI : TypeInfo → Nat
| .Simple _ => 1
| .Primitive _ => 1
| .Array i | .ReadonlyArray i | .Set i | .Promise i | .PromiseLike i | .Observable i => 1 + depthTI i
| .Map k v | .Record k v => 1 + max (depthTI k) (depthTI v)
| .Union ts | .Intersection ts => 1 + depthList ts
| .Optional i | .Nullable i => 1 + depthTI i
| .Function ps r => 1 + max (depthList ps) (depthTI r)
| .Class _ c m p => 1 + max (depthTI c) (max (depthProps m) (depthProps p))
| .Interface _ p => 1 + depthProps p
| .Generic _ tps => 1 + depthList tps
| .Literal _ => 1
| .Enum _ _ => 1
| .Tuple es => 1 + depthList es
| .Object p => 1 + depthProps p
| .IndexSignature k v => 1 + max (depthTI k) (depthTI v)
| .Conditional c e tt f => 1 + max (max (depthTI c) (depthTI e)) (max (depthTI tt) (depthTI f))
| .Mapped k v => 1 + max (depthTI k) (depthTI v)
| .TemplateLiteral _ ts => 1 + depthList ts
| .unknown => 1
termination_by t => sizeOf t
decreasing_by
  all_goals simp_wf
  all_goals omega

/-- Maximal depth of the members of a list of type nodes. -/
def depthList : List TypeInfo → Nat
| [] => 0
| t :: rest => max (depthTI t) (depthList rest)
termination_by l => sizeOf l
decreasing_by
  all_goals simp_wf
  all_goals omega

/-- Maximal depth of the values of a property map. -/
def depthProps : List (String × TypeInfo) → Nat
| [] => 0
| (_, v) :: rest => max (depthTI v) (depthProps rest)
termination_by l => sizeOf l
decreasing_by
  all_goals simp_wf
  all_goals omega

end

/-- The keys of a property map are pairwise distinct (part of the §3 data
model invariant on `Object`/`Class`/`Interface` property maps). -/
def nodupKeys (l : List (String × TypeInfo)) : Bool :=
  decide ((l.map Prod.fst).Nodup)

mutual

/-- The §3 data-model invariant, restricted to what the structural rules
traverse: every `Union` and `Intersection` member list occurring in the
tree is non-empty, and every property map has unique keys. -/
def validTI : TypeInfo → Bool
| .Simple _ => true
| .Primitive _ => true
| .Array i | .ReadonlyArray i | .Set i | .Promise i | .PromiseLike i | .Observable i => validTI i
| .Map k v | .Record k v => validTI k && validTI v
| .Union ts => !ts.isEmpty && validList ts
| .Intersection ts => !ts.isEmpty && validList ts
| .Optional i | .Nullable i => validTI i
| .Function ps r => validList ps && validTI r
| .Class _ c m p => validTI c && (nodupKeys m && validProps m) && (nodupKeys p && validProps p)
| .Interface _ p => nodupKeys p && validProps p
| .Generic _ tps => validList tps
| .Literal _ => true
| .Enum _ _ => true
| .Tuple es => validList es
| .Object p => nodupKeys p && validProps p
| .IndexSignature k v => validTI k && validTI v
| .Conditional c e tt f => validTI c && validTI e && validTI tt && validTI f
| .Mapped k v => validTI k && validTI v
| .TemplateLiteral _ ts => validList ts
| .unknown => true
termination_by t => sizeOf t
decreasing_by
  all_goals simp_wf
  all_goals omega

/-- `validTI` on every member of a list. -/
def validList : List TypeInfo → Bool
| [] => true
| t :: rest => validTI t && validList rest
termination_by l => sizeOf l
decreasing_by
  all_goals simp_wf
  all_goals omega

/-- `validTI` on every value of a property map. -/
def validProps : List (String × TypeInfo) → Bool
| [] => true
| (_, v) :: rest => validTI v && validProps rest
termination_by l => sizeOf l
decreasing_by
  all_goals simp_wf
  all_goals omega

end

/-! ## Unfolding characterizations of `assignCore`

One lemma per constructor pair used below; each is proved by unfolding the
kind dispatch and the corresponding rule block. -/

@[simp] theorem isAssignableTo_some_some (a b : TypeInfo) :
    isAssignableTo (some a) (some b) = assignCore a b := rfl

@[simp] theorem isAssignableTo_none_left (o : Option TypeInfo) :
    isAssignableTo none o = false := rfl

@[simp] theorem isAssignableTo_none_right (o : Option TypeInfo) :
    isAssignableTo o none = false := by cases o <;> rfl

set_option maxHeartbeats 4000000 in
@[simp] theorem assignCore_Primitive (p1 p2 : PrimTag) :
    assignCore (.Primitive p1) (.Primitive p2) = (p1 == p2) := by
  rw [assignCore]; simp [TypeInfo.kind, sameKindAssign]

@[simp] theorem assignCore_Literal (v1 v2 : LitValue) :
    assignCore (.Literal v1) (.Literal v2) = (v1 == v2) := by
  rw [assignCore]; simp [TypeInfo.kind, sameKindAssign]

@[simp] theorem assignCore_Union (ts1 ts2 : List TypeInfo) :
    assignCore (.Union ts1) (.Union ts2) = anyTargetCovered ts1 ts2 := by
  rw [assignCore]; simp [TypeInfo.kind, sameKindAssign]

@[simp] theorem assignCore_Intersection (ts1 ts2 : List TypeInfo) :
    assignCore (.Intersection ts1) (.Intersection ts2) = allTargetsCovered ts1 ts2 := by
  rw [assignCore]; simp [TypeInfo.kind, sameKindAssign]

@[simp] theorem assignCore_Array (i1 i2 : TypeInfo) :
    assignCore (.Array i1) (.Array i2) = assignCore i1 i2 := by
  rw [assignCore]; simp [TypeInfo.kind, sameKindAssign]

@[simp] theorem assignCore_ReadonlyArray (i1 i2 : TypeInfo) :
    assignCore (.ReadonlyArray i1) (.ReadonlyArray i2) = assignCore i1 i2 := by
  rw [assignCore]; simp [TypeInfo.kind, sameKindAssign]

@[simp] theorem assignCore_Set (i1 i2 : TypeInfo) :
    assignCore (.Set i1) (.Set i2) = assignCore i1 i2 := by
  rw [assignCore]; simp [TypeInfo.kind, sameKindAssign]

@[simp] theorem assignCore_Map (k1 v1 k2 v2 : TypeInfo) :
    assignCore (.Map k1 v1) (.Map k2 v2) = (assignCore k1 k2 && assignCore v1 v2) := by
  rw [assignCore]; simp [TypeInfo.kind, sameKindAssign]

@[simp] theorem assignCore_Record (k1 v1 k2 v2 : TypeInfo) :
    assignCore (.Record k1 v1) (.Record k2 v2) = (assignCore k1 k2 && assignCore v1 v2) := by
  rw [assignCore]; simp [TypeInfo.kind, sameKindAssign]

@[simp] theorem assignCore_Promise (i1 i2 : TypeInfo) :
    assignCore (.Promise i1) (.Promise i2) = assignCore i1 i2 := by
  rw [assignCore]; simp [TypeInfo.kind, sameKindAssign]

@[simp] theorem assignCore_PromiseLike (i1 i2 : TypeInfo) :
    assignCore (.PromiseLike i1) (.PromiseLike i2) = assignCore i1 i2 := by
  rw [assignCore]; simp [TypeInfo.kind, sameKindAssign]

@[simp] theorem assignCore_Function (ps1 ps2 : List TypeInfo) (r1 r2 : TypeInfo) :
    assignCore (.Function ps1 r1) (.Function ps2 r2) =
      (assignCore r1 r2 && areParametersCompatible ps1 ps2) := by
  rw [assignCore]; simp [TypeInfo.kind, sameKindAssign]

@[simp] theorem assignCore_Tuple (es1 es2 : List TypeInfo) :
    assignCore (.Tuple es1) (.Tuple es2) =
      (es1.length == es2.length && allAssign2 es1 es2) := by
  rw [assignCore]; simp [TypeInfo.kind, sameKindAssign]

@[simp] theorem assignCore_Object (props1 props2 : List (String × TypeInfo)) :
    assignCore (.Object props1) (.Object props2) = propsAssign props1 props2 := by
  rw [assignCore]; simp [TypeInfo.kind, sameKindAssign]

@[simp] theorem assignCore_Simple (s1 s2 : String) :
    assignCore (.Simple s1) (.Simple s2) = true := by
  rw [assignCore]; simp [TypeInfo.kind, sameKindAssign]

@[simp] theorem assignCore_Observable (i1 i2 : TypeInfo) :
    assignCore (.Observable i1) (.Observable i2) = true := by
  rw [assignCore]; simp [TypeInfo.kind, sameKindAssign]

@[simp] theorem assignCore_Optional_Optional (i1 i2 : TypeInfo) :
    assignCore (.Optional i1) (.Optional i2) = true := by
  rw [assignCore]; simp [TypeInfo.kind, sameKindAssign]

@[simp] theorem assignCore_Nullable_Nullable (i1 i2 : TypeInfo) :
    assignCore (.Nullable i1) (.Nullable i2) = true := by
  rw [assignCore]; simp [TypeInfo.kind, sameKindAssign]

@[simp] theorem assignCore_Class (n1 n2 : String) (c1 c2 : TypeInfo)
    (m1 m2 p1 p2 : List (String × TypeInfo)) :
    assignCore (.Class n1 c1 m1 p1) (.Class n2 c2 m2 p2) = true := by
  rw [assignCore]; simp [TypeInfo.kind, sameKindAssign]

@[simp] theorem assignCore_Interface (n1 n2 : String)
    (p1 p2 : List (String × TypeInfo)) :
    assignCore (.Interface n1 p1) (.Interface n2 p2) = true := by
  rw [assignCore]; simp [TypeInfo.kind, sameKindAssign]

@[simp] theorem assignCore_Generic (n1 n2 : String) (tps1 tps2 : List TypeInfo) :
    assignCore (.Generic n1 tps1) (.Generic n2 tps2) = true := by
  rw [assignCore]; simp [TypeInfo.kind, sameKindAssign]

@[simp] theorem assignCore_Enum (n1 n2 : String)
    (vs1 vs2 : List (String × EnumVal)) :
    assignCore (.Enum n1 vs1) (.Enum n2 vs2) = true := by
  rw [assignCore]; simp [TypeInfo.kind, sameKindAssign]

@[simp] theorem assignCore_IndexSignature (k1 v1 k2 v2 : TypeInfo) :
    assignCore (.IndexSignature k1 v1) (.IndexSignature k2 v2) = true := by
  rw [assignCore]; simp [TypeInfo.kind, sameKindAssign]

@[simp] theorem assignCore_Conditional (c1 e1 t1 f1 c2 e2 t2 f2 : TypeInfo) :
    assignCore (.Conditional c1 e1 t1 f1) (.Conditional c2 e2 t2 f2) = true := by
  rw [assignCore]; simp [TypeInfo.kind, sameKindAssign]

@[simp] theorem assignCore_Mapped (k1 v1 k2 v2 : TypeInfo) :
    assignCore (.Mapped k1 v1) (.Mapped k2 v2) = true := by
  rw [assignCore]; simp [TypeInfo.kind, sameKindAssign]

@[simp] theorem assignCore_TemplateLiteral (parts1 parts2 : List String)
    (ts1 ts2 : List TypeInfo) :
    assignCore (.TemplateLiteral parts1 ts1) (.TemplateLiteral parts2 ts2) = true := by
  rw [assignCore]; simp [TypeInfo.kind, sameKindAssign]

@[simp] theorem assignCore_unknown_unknown :
    assignCore .unknown .unknown = true := by
  rw [assignCore]; simp [TypeInfo.kind, sameKindAssign]

set_option maxHeartbeats 4000000 in
@[simp] theorem assignCore_Literal_Primitive (v : LitValue) (p : PrimTag) :
    assignCore (.Literal v) (.Primitive p) = (v.typeofTag == p.toStr) := by
  rw [assignCore]; simp [TypeInfo.kind, crossKindAssign]

/-! ## Equations for the list walkers -/

set_option maxHeartbeats 1000000 in
@[simp] theorem anyAssignFrom_nil (t : TypeInfo) : anyAssignFrom [] t = false := by
  rw [anyAssignFrom]

@[simp] theorem anyAssignFrom_cons (s : TypeInfo) (rest : List TypeInfo) (t : TypeInfo) :
    anyAssignFrom (s :: rest) t = (assignCore s t || anyAssignFrom rest t) := by
  rw [anyAssignFrom]

set_option maxHeartbeats 1000000 in
@[simp] theorem anyTargetCovered_nil (ss : List TypeInfo) : anyTargetCovered ss [] = false := by
  rw [anyTargetCovered]

@[simp] theorem anyTargetCovered_cons (ss : List TypeInfo) (t : TypeInfo) (rest : List TypeInfo) :
    anyTargetCovered ss (t :: rest) = (anyAssignFrom ss t || anyTargetCovered ss rest) := by
  rw [anyTargetCovered]

set_option maxHeartbeats 1000000 in
@[simp] theorem allTargetsCovered_nil (ss : List TypeInfo) : allTargetsCovered ss [] = true := by
  rw [allTargetsCovered]

@[simp] theorem allTargetsCovered_cons (ss : List TypeInfo) (t : TypeInfo) (rest : List TypeInfo) :
    allTargetsCovered ss (t :: rest) = (anyAssignFrom ss t && allTargetsCovered ss rest) := by
  rw [allTargetsCovered]

set_option maxHeartbeats 1000000 in
@[simp] theorem anyUnionMember_nil (a : TypeInfo) : anyUnionMember a [] = false := by
  rw [anyUnionMember]

@[simp] theorem anyUnionMember_cons (a t : TypeInfo) (rest : List TypeInfo) :
    anyUnionMember a (t :: rest) = (assignCore a t || anyUnionMember a rest) := by
  rw [anyUnionMember]

set_option maxHeartbeats 1000000 in
@[simp] theorem allIntersectionMembers_nil (b : TypeInfo) : allIntersectionMembers [] b = true := by
  rw [allIntersectionMembers]

@[simp] theorem allIntersectionMembers_cons (s : TypeInfo) (rest : List TypeInfo) (b : TypeInfo) :
    allIntersectionMembers (s :: rest) b = (assignCore s b && allIntersectionMembers rest b) := by
  rw [allIntersectionMembers]

set_option maxHeartbeats 1000000 in
@[simp] theorem allAssign2_nil (es2 : List TypeInfo) : allAssign2 [] es2 = true := by
  rw [allAssign2]

@[simp] theorem allAssign2_cons_nil (e1 : TypeInfo) (r1 : List TypeInfo) :
    allAssign2 (e1 :: r1) [] = false := by
  rw [allAssign2]

@[simp] theorem allAssign2_cons_cons (e1 e2 : TypeInfo) (r1 r2 : List TypeInfo) :
    allAssign2 (e1 :: r1) (e2 :: r2) = (assignCore e1 e2 && allAssign2 r1 r2) := by
  rw [allAssign2]

set_option maxHeartbeats 1000000 in
@[simp] theorem allAssignContra_nil (ps2 : List TypeInfo) : allAssignContra [] ps2 = true := by
  rw [allAssignContra]

@[simp] theorem allAssignContra_cons_nil (p1 : TypeInfo) (r1 : List TypeInfo) :
    allAssignContra (p1 :: r1) [] = false := by
  rw [allAssignContra]

@[simp] theorem allAssignContra_cons_cons (p1 p2 : TypeInfo) (r1 r2 : List TypeInfo) :
    allAssignContra (p1 :: r1) (p2 :: r2) = (assignCore p2 p1 && allAssignContra r1 r2) := by
  rw [allAssignContra]

set_option maxHeartbeats 1000000 in
theorem areParametersCompatible_def (ps1 ps2 : List TypeInfo) :
    areParametersCompatible ps1 ps2 = (ps1.length == ps2.length && allAssignContra ps1 ps2) := by
  rw [areParametersCompatible]

set_option maxHeartbeats 1000000 in
@[simp] theorem lookupAssign_nil (k : String) (v2 : TypeInfo) : lookupAssign [] k v2 = false := by
  rw [lookupAssign]

@[simp] theorem lookupAssign_cons (k1 : String) (v1 : TypeInfo)
    (rest : List (String × TypeInfo)) (k : String) (v2 : TypeInfo) :
    lookupAssign ((k1, v1) :: rest) k v2 =
      (if k == k1 then assignCore v1 v2 else lookupAssign rest k v2) := by
  rw [lookupAssign]

set_option maxHeartbeats 1000000 in
@[simp] theorem propsAssign_nil (p1 : List (String × TypeInfo)) : propsAssign p1 [] = true := by
  rw [propsAssign]

@[simp] theorem propsAssign_cons (p1 : List (String × TypeInfo)) (k : String) (v2 : TypeInfo)
    (rest : List (String × TypeInfo)) :
    propsAssign p1 ((k, v2) :: rest) = (lookupAssign p1 k v2 && propsAssign p1 rest) := by
  rw [propsAssign]

/-! ## Claims C2 and C5 -/

/-- Claim C2 counterexample: two `Class` nodes where the target has a
property (`x : string`) that the source lacks entirely are nevertheless
reported assignable, so `Class`/`Class` comparison does not apply the
Object structural property rule. -/
theorem claimC2_counterexample :
    isAssignableTo (some (.Class ("A") .unknown [] []))
        (some (.Class ("B") .unknown [] [(("x"), .Primitive .string)])) = true
    ∧ ¬ (∃ v1, List.lookup ("x") ([] : List (String × TypeInfo)) = some v1 ∧
          isAssignableTo (some v1) (some (.Primitive .string)) = true) := by
  constructor
  · simp
  · simp [List.lookup]

/-- Claim C2 amended: for two nodes of kind `Class` (and likewise two nodes
of kind `Interface`), `isAssignableTo` falls into the permissive same-kind
default and always returns `true`; the structural property rule is not
applied to them. -/
theorem claimC2_amended :
    (∀ (n1 n2 : String) (c1 c2 : TypeInfo) (m1 m2 p1 p2 : List (String × TypeInfo)),
      isAssignableTo (some (.Class n1 c1 m1 p1)) (some (.Class n2 c2 m2 p2)) = true)
    ∧ (∀ (n1 n2 : String) (p1 p2 : List (String × TypeInfo)),
      isAssignableTo (some (.Interface n1 p1)) (some (.Interface n2 p2)) = true) := by
  constructor
  · intro n1 n2 c1 c2 m1 m2 p1 p2
    simp
  · intro n1 n2 p1 p2
    simp

/-- Claim C5: a `Literal` source is assignable to a `Primitive` target
exactly when the literal value's `typeof` tag equals the primitive's tag
name; in particular `"hello"` is assignable to `string` and `42` is not. -/
theorem claimC5 :
    (∀ (v : LitValue) (p : PrimTag),
      isAssignableTo (some (.Literal v)) (some (.Primitive p)) = true ↔
        LitValue.typeofTag v = PrimTag.toStr p)
    ∧ isAssignableTo (some (.Literal (.str ("hello")))) (some (.Primitive .string)) = true
    ∧ isAssignableTo (some (.Literal (.num 42))) (some (.Primitive .string)) = false := by
  refine ⟨fun v p => ?_, ?_, ?_⟩
  · simp
  · simp [LitValue.typeofTag, PrimTag.toStr]
  · simp [LitValue.typeofTag, PrimTag.toStr]

/-! ## Claim C1 -/

theorem anyAssignFrom_eq_true_iff (ss : List TypeInfo) (t : TypeInfo) :
    anyAssignFrom ss t = true ↔ ∃ s ∈ ss, assignCore s t = true := by
  induction ss with
  | nil => simp
  | cons s rest ih => simp [ih, Bool.or_eq_true]

theorem anyTargetCovered_eq_true_iff (ss ts : List TypeInfo) :
    anyTargetCovered ss ts = true ↔ ∃ t ∈ ts, ∃ s ∈ ss, assignCore s t = true := by
  induction ts with
  | nil => simp
  | cons t rest ih => simp [ih, Bool.or_eq_true, anyAssignFrom_eq_true_iff]

theorem allTargetsCovered_eq_true_iff (ss ts : List TypeInfo) :
    allTargetsCovered ss ts = true ↔ ∀ t ∈ ts, ∃ s ∈ ss, assignCore s t = true := by
  induction ts with
  | nil => simp
  | cons t rest ih => simp [ih, Bool.and_eq_true, anyAssignFrom_eq_true_iff]

/-- Claim C1 counterexample: for source `Union[string]` and target
`Union[string, number]`, the engine answers `true`, yet the target member
`number` is matched by no source member — the "every target member is
covered" reading is violated. -/
theorem claimC1_counterexample :
    isAssignableTo (some (.Union [.Primitive .string]))
        (some (.Union [.Primitive .string, .Primitive .number])) = true
    ∧ ¬ (∀ t ∈ [TypeInfo.Primitive .string, TypeInfo.Primitive .number],
          ∃ s ∈ [TypeInfo.Primitive .string], isAssignableTo (some s) (some t) = true) := by
  constructor
  · simp
  · intro h
    have hnum := h (.Primitive .number) (by simp)
    obtain ⟨s, hs, hass⟩ := hnum
    simp at hs
    subst hs
    simp at hass

/-- Claim C1 amended: for two `Union` nodes with non-empty member lists,
`isAssignableTo(source, target)` returns `true` iff SOME member `t` of
`target.types` is matched by some member `s` of `source.types`
(`target.types.some`, not `.every`, in the source). -/
theorem claimC1_amended (ts1 ts2 : List TypeInfo) (h1 : ts1 ≠ []) (h2 : ts2 ≠ []) :
    isAssignableTo (some (.Union ts1)) (some (.Union ts2)) = true ↔
      ∃ t ∈ ts2, ∃ s ∈ ts1, isAssignableTo (some s) (some t) = true := by
  simp [anyTargetCovered_eq_true_iff]

/-- Witness for the amended C1 at a concrete pair of unions. -/
theorem claimC1_witness :
    isAssignableTo (some (.Union [.Primitive .string]))
        (some (.Union [.Primitive .number, .Primitive .string])) = true :=
  (claimC1_amended [.Primitive .string] [.Primitive .number, .Primitive .string]
      (by simp) (by simp)).mpr
    ⟨.Primitive .string, by simp, .Primitive .string, by simp, by simp⟩

/-! ## Claim C3 -/

theorem lookupAssign_eq_true_iff (p1 : List (String × TypeInfo)) (k : String) (v2 : TypeInfo) :
    lookupAssign p1 k v2 = true ↔
      ∃ v1, p1.lookup k = some v1 ∧ assignCore v1 v2 = true := by
  induction p1 with
  | nil => simp [List.lookup]
  | cons kv rest ih =>
    obtain ⟨k1, v1⟩ := kv
    by_cases hk : k == k1
    · simp [List.lookup, hk]
    · simp [List.lookup, hk, ih]

theorem propsAssign_eq_true_iff (p1 p2 : List (String × TypeInfo)) :
    propsAssign p1 p2 = true ↔
      ∀ kv ∈ p2, ∃ v1, p1.lookup kv.1 = some v1 ∧ assignCore v1 kv.2 = true := by
  induction p2 with
  | nil => simp
  | cons kv rest ih =>
    obtain ⟨k, v2⟩ := kv
    simp [Bool.and_eq_true, lookupAssign_eq_true_iff, ih]

theorem lookupAssign_skip (k0 : String) (v0 : TypeInfo) (p1 : List (String × TypeInfo))
    (k : String) (v2 : TypeInfo) (h : k ≠ k0) :
    lookupAssign ((k0, v0) :: p1) k v2 = lookupAssign p1 k v2 := by
  simp [lookupAssign_cons, h]

theorem propsAssign_extra (p1 p2 : List (String × TypeInfo)) (k : String) (v : TypeInfo)
    (h : k ∉ p2.map Prod.fst) :
    propsAssign ((k, v) :: p1) p2 = propsAssign p1 p2 := by
  induction p2 with
  | nil => simp
  | cons kv rest ih =>
    obtain ⟨k2, v2⟩ := kv
    simp only [List.map_cons, List.mem_cons] at h
    push_neg at h
    obtain ⟨hne, hrest⟩ := h
    rw [propsAssign_cons, propsAssign_cons, lookupAssign_skip _ _ _ _ _ (fun hh => hne hh.symm),
      ih hrest]

/-- Claim C3: for two `Object` nodes, `isAssignableTo` returns `true` iff
every property of the target has a counterpart in the source property map
with an assignable type (a key missing on the source forces `false`), and
an extra source property whose key does not occur in the target leaves the
verdict unchanged. -/
theorem claimC3 :
    (∀ p1 p2 : List (String × TypeInfo),
      isAssignableTo (some (.Object p1)) (some (.Object p2)) = true ↔
        ∀ kv ∈ p2, ∃ v1, p1.lookup kv.1 = some v1 ∧
          isAssignableTo (some v1) (some kv.2) = true)
    ∧ (∀ (p1 p2 : List (String × TypeInfo)) (k : String) (v : TypeInfo),
        k ∉ p2.map Prod.fst →
        isAssignableTo (some (.Object ((k, v) :: p1))) (some (.Object p2)) =
          isAssignableTo (some (.Object p1)) (some (.Object p2))) := by
  constructor
  · intro p1 p2
    simp [propsAssign_eq_true_iff]
  · intro p1 p2 k v h
    simp [propsAssign_extra p1 p2 k v h]

/-- Witness for C3 at concrete objects: `{id: number, zz: string}` is
assignable to `{id: number}`, and dropping the extra `zz` does not change
the verdict. -/
theorem claimC3_witness :
    isAssignableTo (some (.Object [(("zz"), .Primitive .string), (("id"), .Primitive .number)]))
        (some (.Object [(("id"), .Primitive .number)])) =
      isAssignableTo (some (.Object [(("id"), .Primitive .number)]))
        (some (.Object [(("id"), .Primitive .number)])) :=
  claimC3.2 [(("id"), .Primitive .number)] [(("id"), .Primitive .number)]
    ("zz") (.Primitive .string) (by simp)

/-! ## Claim C4 -/

theorem allAssignContra_eq_true_iff (ps1 ps2 : List TypeInfo) (h : ps1.length = ps2.length) :
    allAssignContra ps1 ps2 = true ↔
      ∀ i (h1 : i < ps2.length) (h2 : i < ps1.length),
        assignCore (ps2[i]) (ps1[i]) = true := by
  induction ps1 generalizing ps2 with
  | nil =>
    cases ps2 with
    | nil => simp
    | cons p2 r2 => simp at h
  | cons p1 r1 ih =>
    cases ps2 with
    | nil => simp at h
    | cons p2 r2 =>
      simp only [List.length_cons, Nat.add_right_cancel_iff] at h
      rw [allAssignContra_cons_cons, Bool.and_eq_true]
      constructor
      · rintro ⟨hh, ht⟩ i h1 h2
        match i with
        | 0 => simpa using hh
        | i + 1 =>
          have := (ih r2 h).mp ht i (by simpa using h1) (by simpa using h2)
          simpa using this
      · intro hh
        refine ⟨by simpa using hh 0 (by simp) (by simp), (ih r2 h).mpr ?_⟩
        intro i h1 h2
        simpa using hh (i + 1) (by simpa using h1) (by simpa using h2)

/-- Claim C4: two `Function` nodes are assignable iff the return types are
assignable (covariant), the parameter lists have equal length, and at every
position the target parameter is assignable to the source parameter
(contravariant); unequal arity forces `false`. -/
theorem claimC4 (ps1 ps2 : List TypeInfo) (r1 r2 : TypeInfo) :
    isAssignableTo (some (.Function ps1 r1)) (some (.Function ps2 r2)) = true ↔
      (isAssignableTo (some r1) (some r2) = true ∧ ps1.length = ps2.length ∧
        ∀ i (h1 : i < ps2.length) (h2 : i < ps1.length),
          isAssignableTo (some (ps2[i])) (some (ps1[i])) = true) := by
  simp only [isAssignableTo_some_some, assignCore_Function, areParametersCompatible_def,
    Bool.and_eq_true, beq_iff_eq]
  constructor
  · rintro ⟨hr, hlen, hc⟩
    exact ⟨hr, hlen, (allAssignContra_eq_true_iff ps1 ps2 hlen).mp hc⟩
  · rintro ⟨hr, hlen, hidx⟩
    exact ⟨hr, hlen, (allAssignContra_eq_true_iff ps1 ps2 hlen).mpr hidx⟩

/-- Witness for C4 at a concrete pair of unary functions. -/
theorem claimC4_witness :
    isAssignableTo (some (.Function [.Primitive .string] (.Primitive .number)))
        (some (.Function [.Primitive .string] (.Primitive .number))) = true :=
  (claimC4 [.Primitive .string] [.Primitive .string]
      (.Primitive .number) (.Primitive .number)).mpr
    ⟨by simp, rfl, fun i h1 h2 => by
      match i with
      | 0 => simp
      | i + 1 => exact absurd h1 (by simp)⟩

/-! ## Equations for `resolveDeepestType` -/

set_option maxHeartbeats 1000000 in
@[simp] theorem resolveDeepestType_none : resolveDeepestType none = none := by
  rw [resolveDeepestType]

@[simp] theorem resolveDeepestType_Promise (i : TypeInfo) :
    resolveDeepestType (some (.Promise i)) = resolveDeepestType (some i) := by
  rw [resolveDeepestType]

@[simp] theorem resolveDeepestType_PromiseLike (i : TypeInfo) :
    resolveDeepestType (some (.PromiseLike i)) = resolveDeepestType (some i) := by
  rw [resolveDeepestType]

@[simp] theorem resolveDeepestType_Array (i : TypeInfo) :
    resolveDeepestType (some (.Array i)) = resolveDeepestType (some i) := by
  rw [resolveDeepestType]

@[simp] theorem resolveDeepestType_ReadonlyArray (i : TypeInfo) :
    resolveDeepestType (some (.ReadonlyArray i)) = resolveDeepestType (some i) := by
  rw [resolveDeepestType]

@[simp] theorem resolveDeepestType_Set (i : TypeInfo) :
    resolveDeepestType (some (.Set i)) = resolveDeepestType (some i) := by
  rw [resolveDeepestType]

@[simp] theorem resolveDeepestType_Observable (i : TypeInfo) :
    resolveDeepestType (some (.Observable i)) = resolveDeepestType (some i) := by
  rw [resolveDeepestType]

@[simp] theorem resolveDeepestType_Map (k v : TypeInfo) :
    resolveDeepestType (some (.Map k v)) = resolveDeepestType (some v) := by
  rw [resolveDeepestType]

@[simp] theorem resolveDeepestType_Record (k v : TypeInfo) :
    resolveDeepestType (some (.Record k v)) = resolveDeepestType (some v) := by
  rw [resolveDeepestType]

@[simp] theorem resolveDeepestType_Optional (i : TypeInfo) :
    resolveDeepestType (some (.Optional i)) = resolveDeepestType (some i) := by
  rw [resolveDeepestType]

@[simp] theorem resolveDeepestType_Nullable (i : TypeInfo) :
    resolveDeepestType (some (.Nullable i)) = resolveDeepestType (some i) := by
  rw [resolveDeepestType]

@[simp] theorem resolveDeepestType_Union (ts : List TypeInfo) :
    resolveDeepestType (some (.Union ts)) = resolveUnionList ts := by
  rw [resolveDeepestType]

@[simp] theorem resolveDeepestType_Intersection (ts : List TypeInfo) :
    resolveDeepestType (some (.Intersection ts)) = resolveLast ts := by
  rw [resolveDeepestType]

@[simp] theorem resolveDeepestType_Function (ps : List TypeInfo) (r : TypeInfo) :
    resolveDeepestType (some (.Function ps r)) = resolveDeepestType (some r) := by
  rw [resolveDeepestType]

@[simp] theorem resolveDeepestType_Generic_nil (n : String) :
    resolveDeepestType (some (.Generic n [])) = none := by
  rw [resolveDeepestType]

@[simp] theorem resolveDeepestType_Generic_cons (n : String) (tp : TypeInfo) (rest : List TypeInfo) :
    resolveDeepestType (some (.Generic n (tp :: rest))) = resolveDeepestType (some tp) := by
  rw [resolveDeepestType]

@[simp] theorem resolveDeepestType_Tuple_nil :
    resolveDeepestType (some (.Tuple [])) = none := by
  rw [resolveDeepestType]

@[simp] theorem resolveDeepestType_Tuple_cons (e : TypeInfo) (rest : List TypeInfo) :
    resolveDeepestType (some (.Tuple (e :: rest))) = resolveDeepestType (some e) := by
  rw [resolveDeepestType]

@[simp] theorem resolveDeepestType_Conditional (c e tt f : TypeInfo) :
    resolveDeepestType (some (.Conditional c e tt f)) = resolveDeepestType (some tt) := by
  rw [resolveDeepestType]

@[simp] theorem resolveDeepestType_Mapped (k v : TypeInfo) :
    resolveDeepestType (some (.Mapped k v)) = resolveDeepestType (some v) := by
  rw [resolveDeepestType]

@[simp] theorem resolveDeepestType_TemplateLiteral_nil (parts : List String) :
    resolveDeepestType (some (.TemplateLiteral parts [])) = none := by
  rw [resolveDeepestType]

@[simp] theorem resolveDeepestType_TemplateLiteral_cons (parts : List String)
    (x : TypeInfo) (rest : List TypeInfo) :
    resolveDeepestType (some (.TemplateLiteral parts (x :: rest))) = resolveDeepestType (some x) := by
  rw [resolveDeepestType]

@[simp] theorem resolveDeepestType_Simple (s : String) :
    resolveDeepestType (some (.Simple s)) = some (.Simple s) := by
  rw [resolveDeepestType]
  all_goals intros
  all_goals simp_all

@[simp] theorem resolveDeepestType_Primitive (p : PrimTag) :
    resolveDeepestType (some (.Primitive p)) = some (.Primitive p) := by
  rw [resolveDeepestType]
  all_goals intros
  all_goals simp_all

@[simp] theorem resolveDeepestType_Literal (v : LitValue) :
    resolveDeepestType (some (.Literal v)) = some (.Literal v) := by
  rw [resolveDeepestType]
  all_goals intros
  all_goals simp_all

@[simp] theorem resolveDeepestType_Enum (n : String) (vs : List (String × EnumVal)) :
    resolveDeepestType (some (.Enum n vs)) = some (.Enum n vs) := by
  rw [resolveDeepestType]
  all_goals intros
  all_goals simp_all

@[simp] theorem resolveDeepestType_IndexSignature (k v : TypeInfo) :
    resolveDeepestType (some (.IndexSignature k v)) = some (.IndexSignature k v) := by
  rw [resolveDeepestType]
  all_goals intros
  all_goals simp_all

@[simp] theorem resolveDeepestType_unknown :
    resolveDeepestType (some .unknown) = some .unknown := by
  rw [resolveDeepestType]
  all_goals intros
  all_goals simp_all

@[simp] theorem resolveDeepestType_Class (n : String) (c : TypeInfo)
    (m p : List (String × TypeInfo)) :
    resolveDeepestType (some (.Class n c m p)) = some (.Class n c m p) := by
  rw [resolveDeepestType]
  all_goals intros
  all_goals simp_all

@[simp] theorem resolveDeepestType_Interface (n : String) (p : List (String × TypeInfo)) :
    resolveDeepestType (some (.Interface n p)) = some (.Interface n p) := by
  rw [resolveDeepestType]
  all_goals intros
  all_goals simp_all

@[simp] theorem resolveDeepestType_Object (p : List (String × TypeInfo)) :
    resolveDeepestType (some (.Object p)) = some (.Object p) := by
  rw [resolveDeepestType]
  all_goals intros
  all_goals simp_all

set_option maxHeartbeats 1000000 in
@[simp] theorem resolveUnionList_nil : resolveUnionList [] = none := by
  rw [resolveUnionList]

theorem resolveUnionList_cons (t : TypeInfo) (rest : List TypeInfo) :
    resolveUnionList (t :: rest) =
      (if t.kind != "unknown" then resolveDeepestType (some t)
       else if anyNonUnknown rest then resolveUnionList rest else some t) := by
  rw [resolveUnionList]

set_option maxHeartbeats 1000000 in
@[simp] theorem resolveLast_nil : resolveLast [] = none := by
  rw [resolveLast]

@[simp] theorem resolveLast_single (t : TypeInfo) :
    resolveLast [t] = resolveDeepestType (some t) := by
  rw [resolveLast]

@[simp] theorem resolveLast_cons2 (a b : TypeInfo) (rest : List TypeInfo) :
    resolveLast (a :: b :: rest) = resolveLast (b :: rest) := by
  rw [resolveLast]
  all_goals intros
  all_goals simp_all

/-! ## Claims C6 and C7 -/

theorem eq_unknown_of_kind (t : TypeInfo) (h : (t.kind != "unknown") = false) :
    t = .unknown := by
  cases t <;> simp only [TypeInfo.kind] at h <;> first | rfl | exact absurd h (by decide)

theorem anyNonUnknown_of_mem (l : List TypeInfo) (t : TypeInfo)
    (hmem : t ∈ l) (hk : t.kind ≠ "unknown") : anyNonUnknown l = true := by
  simp only [anyNonUnknown, List.any_eq_true]
  exact ⟨t, hmem, bne_iff_ne.mpr hk⟩

theorem anyNonUnknown_eq_false (l : List TypeInfo)
    (h : ∀ u ∈ l, u = TypeInfo.unknown) : anyNonUnknown l = false := by
  simp only [anyNonUnknown, List.any_eq_false]
  intro x hx
  rw [h x hx]
  decide

/-- Claim C6: on a `Union`, `resolveDeepestType` descends into the first
member whose kind is not `"unknown"` and returns its deep resolution; when
every member is `unknown` it returns the first member as-is; in particular
`Union[unknown, number]` resolves to the `number` primitive. -/
theorem claimC6 :
    (∀ (ts1 : List TypeInfo) (t : TypeInfo) (ts2 : List TypeInfo),
        (∀ u ∈ ts1, u = TypeInfo.unknown) → t.kind ≠ "unknown" →
        resolveDeepestType (some (.Union (ts1 ++ t :: ts2))) = resolveDeepestType (some t))
    ∧ (∀ (t : TypeInfo) (ts : List TypeInfo),
        (∀ u ∈ t :: ts, u = TypeInfo.unknown) →
        resolveDeepestType (some (.Union (t :: ts))) = some t)
    ∧ resolveDeepestType (some (.Union [.unknown, .Primitive .number])) =
        some (.Primitive .number) := by
  refine ⟨?_, ?_, ?_⟩
  · intro ts1 t ts2 hpre hk
    rw [resolveDeepestType_Union]
    induction ts1 with
    | nil =>
      rw [List.nil_append, resolveUnionList_cons, if_pos (bne_iff_ne.mpr hk)]
    | cons u rest ih =>
      have hu : u = TypeInfo.unknown := hpre u (by simp)
      subst hu
      rw [List.cons_append, resolveUnionList_cons]
      have hk0 : ((TypeInfo.unknown).kind != "unknown") = false := by decide
      rw [hk0]
      simp only [Bool.false_eq_true, if_false]
      have hany : anyNonUnknown (rest ++ t :: ts2) = true :=
        anyNonUnknown_of_mem _ t (by simp) hk
      rw [hany, if_pos rfl]
      exact ih fun u hu => hpre u (by simp [hu])
  · intro t ts hall
    have ht : t = TypeInfo.unknown := hall t (by simp)
    subst ht
    rw [resolveDeepestType_Union, resolveUnionList_cons]
    have hk0 : ((TypeInfo.unknown).kind != "unknown") = false := by decide
    rw [hk0]
    simp only [Bool.false_eq_true, if_false]
    have hany : anyNonUnknown ts = false :=
      anyNonUnknown_eq_false ts fun u hu => hall u (by simp [hu])
    rw [hany]
    simp
  · rw [resolveDeepestType_Union, resolveUnionList_cons]
    have hk0 : ((TypeInfo.unknown).kind != "unknown") = false := by decide
    rw [hk0]
    simp only [Bool.false_eq_true, if_false]
    have hany : anyNonUnknown [.Primitive .number] = true := by decide
    rw [hany, if_pos rfl, resolveUnionList_cons]
    have hk1 : ((TypeInfo.Primitive .number).kind != "unknown") = true := by decide
    rw [hk1]
    simp

/-- Witness for C6 applying the general first-non-unknown rule at the
spec's concrete union. -/
theorem claimC6_witness :
    resolveDeepestType (some (.Union ([TypeInfo.unknown] ++ TypeInfo.Primitive .number :: []))) =
      resolveDeepestType (some (.Primitive .number)) :=
  claimC6.1 [TypeInfo.unknown] (.Primitive .number) []
    (by intro u hu; simpa using hu) (by decide)

/-- Claim C7 counterexample: an empty `Generic` parameter list and an
empty `Tuple` element list resolve to the absent result `none`
(`typeParameters[0]`/`elements[0]` is `undefined`), which is not an
`unknown` node. -/
theorem claimC7_counterexample :
    resolveDeepestType (some (.Generic ("G") [])) = none
    ∧ resolveDeepestType (some (.Tuple [])) = none
    ∧ (none : Option TypeInfo) ≠ some TypeInfo.unknown := by
  refine ⟨by simp, by simp, by simp⟩

/-- Claim C7 amended: on a `Generic` with an empty `typeParameters` list
and on an empty `Tuple`, `resolveDeepestType` returns the absent result
(`none`) — the treatment of absent input — not an `Unknown` node. -/
theorem claimC7_amended :
    (∀ n : String, resolveDeepestType (some (.Generic n [])) = none)
    ∧ resolveDeepestType (some (.Tuple [])) = none := by
  exact ⟨fun n => by simp, by simp⟩

/-! ## Claim C10 -/

theorem one_le_sizeOf_TI (t : TypeInfo) : 1 ≤ sizeOf t := by
  cases t <;> simp_arith

theorem one_le_sizeOf_listTI (l : List TypeInfo) : 1 ≤ sizeOf l := by
  cases l <;> simp_arith

theorem resolveUnionList_idem (n : Nat)
    (ih : ∀ o : Option TypeInfo, sizeOf o ≤ n →
      resolveDeepestType (resolveDeepestType o) = resolveDeepestType o) :
    ∀ ts : List TypeInfo, sizeOf ts ≤ n →
      resolveDeepestType (resolveUnionList ts) = resolveUnionList ts := by
  intro ts
  induction ts with
  | nil => intro h; simp
  | cons t rest ihl =>
    intro h
    simp only [List.cons.sizeOf_spec] at h
    rw [resolveUnionList_cons]
    by_cases hk : (t.kind != "unknown") = true
    · rw [if_pos hk]
      refine ih (some t) ?_
      have hr := one_le_sizeOf_listTI rest
      simp only [Option.some.sizeOf_spec]
      omega
    · rw [if_neg hk]
      by_cases ha : anyNonUnknown rest = true
      · rw [if_pos ha]
        refine ihl ?_
        have ht := one_le_sizeOf_TI t
        omega
      · rw [if_neg ha]
        rw [Bool.not_eq_true] at hk
        rw [eq_unknown_of_kind t hk]
        simp

theorem resolveLast_idem (n : Nat)
    (ih : ∀ o : Option TypeInfo, sizeOf o ≤ n →
      resolveDeepestType (resolveDeepestType o) = resolveDeepestType o) :
    ∀ ts : List TypeInfo, sizeOf ts ≤ n →
      resolveDeepestType (resolveLast ts) = resolveLast ts := by
  intro ts
  induction ts with
  | nil => intro h; simp
  | cons a rest ihl =>
    intro h
    simp only [List.cons.sizeOf_spec] at h
    cases rest with
    | nil =>
      rw [resolveLast_single]
      refine ih (some a) ?_
      simp only [Option.some.sizeOf_spec]
      simp only [List.nil.sizeOf_spec] at h
      omega
    | cons b rest2 =>
      rw [resolveLast_cons2]
      refine ihl ?_
      have ha := one_le_sizeOf_TI a
      omega

theorem resolve_idem_aux :
    ∀ (n : Nat) (o : Option TypeInfo), sizeOf o ≤ n →
      resolveDeepestType (resolveDeepestType o) = resolveDeepestType o := by
  intro n
  induction n with
  | zero =>
    intro o h
    exfalso
    cases o <;> simp_arith at h
  | succ n ih =>
    intro o h
    match o with
    | none => simp
    | some t =>
      simp only [Option.some.sizeOf_spec] at h
      cases t with
      | Simple s => simp
      | Primitive p => simp
      | Literal v => simp
      | Enum nm vs => simp
      | IndexSignature k v => simp
      | unknown => simp
      | Class nm c m p => simp
      | Interface nm p => simp
      | Object p => simp
      | Array i =>
        rw [resolveDeepestType_Array]
        exact ih (some i) (by simp only [TypeInfo.Array.sizeOf_spec] at h; simp; omega)
      | ReadonlyArray i =>
        rw [resolveDeepestType_ReadonlyArray]
        exact ih (some i) (by simp only [TypeInfo.ReadonlyArray.sizeOf_spec] at h; simp; omega)
      | Set i =>
        rw [resolveDeepestType_Set]
        exact ih (some i) (by simp only [TypeInfo.Set.sizeOf_spec] at h; simp; omega)
      | Promise i =>
        rw [resolveDeepestType_Promise]
        exact ih (some i) (by simp only [TypeInfo.Promise.sizeOf_spec] at h; simp; omega)
      | PromiseLike i =>
        rw [resolveDeepestType_PromiseLike]
        exact ih (some i) (by simp only [TypeInfo.PromiseLike.sizeOf_spec] at h; simp; omega)
      | Observable i =>
        rw [resolveDeepestType_Observable]
        exact ih (some i) (by simp only [TypeInfo.Observable.sizeOf_spec] at h; simp; omega)
      | Map k v =>
        rw [resolveDeepestType_Map]
        exact ih (some v) (by simp only [TypeInfo.Map.sizeOf_spec] at h; simp; omega)
      | Record k v =>
        rw [resolveDeepestType_Record]
        exact ih (some v) (by simp only [TypeInfo.Record.sizeOf_spec] at h; simp; omega)
      | Optional i =>
        rw [resolveDeepestType_Optional]
        exact ih (some i) (by simp only [TypeInfo.Optional.sizeOf_spec] at h; simp; omega)
      | Nullable i =>
        rw [resolveDeepestType_Nullable]
        exact ih (some i) (by simp only [TypeInfo.Nullable.sizeOf_spec] at h; simp; omega)
      | Union ts =>
        rw [resolveDeepestType_Union]
        refine resolveUnionList_idem n ih ts ?_
        simp only [TypeInfo.Union.sizeOf_spec] at h
        omega
      | Intersection ts =>
        rw [resolveDeepestType_Intersection]
        refine resolveLast_idem n ih ts ?_
        simp only [TypeInfo.Intersection.sizeOf_spec] at h
        omega
      | Function ps r =>
        rw [resolveDeepestType_Function]
        exact ih (some r) (by simp only [TypeInfo.Function.sizeOf_spec] at h; simp; omega)
      | Generic nm tps =>
        cases tps with
        | nil => simp
        | cons tp rest =>
          rw [resolveDeepestType_Generic_cons]
          refine ih (some tp) ?_
          simp only [TypeInfo.Generic.sizeOf_spec, List.cons.sizeOf_spec] at h
          simp
          omega
      | Tuple es =>
        cases es with
        | nil => simp
        | cons e rest =>
          rw [resolveDeepestType_Tuple_cons]
          refine ih (some e) ?_
          simp only [TypeInfo.Tuple.sizeOf_spec, List.cons.sizeOf_spec] at h
          simp
          omega
      | Conditional c e tt f =>
        rw [resolveDeepestType_Conditional]
        exact ih (some tt) (by simp only [TypeInfo.Conditional.sizeOf_spec] at h; simp; omega)
      | Mapped k v =>
        rw [resolveDeepestType_Mapped]
        exact ih (some v) (by simp only [TypeInfo.Mapped.sizeOf_spec] at h; simp; omega)
      | TemplateLiteral parts ts =>
        cases ts with
        | nil => simp
        | cons x rest =>
          rw [resolveDeepestType_TemplateLiteral_cons]
          refine ih (some x) ?_
          simp only [TypeInfo.TemplateLiteral.sizeOf_spec, List.cons.sizeOf_spec] at h
          simp
          omega

/-- Claim C10: `resolveDeepestType` is idempotent — resolving an already
resolved result (including the absent one) changes nothing. -/
theorem claimC10 (o : Option TypeInfo) :
    resolveDeepestType (resolveDeepestType o) = resolveDeepestType o :=
  resolve_idem_aux (sizeOf o) o le_rfl

/-! ## Claim C9: reflexivity on valid trees -/

set_option maxHeartbeats 1000000 in
@[simp] theorem validList_nil : validList [] = true := by rw [validList]

@[simp] theorem validList_cons (t : TypeInfo) (rest : List TypeInfo) :
    validList (t :: rest) = (validTI t && validList rest) := by rw [validList]

set_option maxHeartbeats 1000000 in
@[simp] theorem validProps_nil : validProps [] = true := by rw [validProps]

@[simp] theorem validProps_cons (k : String) (v : TypeInfo) (rest : List (String × TypeInfo)) :
    validProps ((k, v) :: rest) = (validTI v && validProps rest) := by rw [validProps]

theorem validList_mem {ts : List TypeInfo} {t : TypeInfo}
    (h : validList ts = true) (hm : t ∈ ts) : validTI t = true := by
  induction ts with
  | nil => cases hm
  | cons a rest ih =>
    rw [validList_cons, Bool.and_eq_true] at h
    rw [List.mem_cons] at hm
    rcases hm with rfl | hm
    · exact h.1
    · exact ih h.2 hm

theorem validProps_mem {l : List (String × TypeInfo)} {kv : String × TypeInfo}
    (h : validProps l = true) (hm : kv ∈ l) : validTI kv.2 = true := by
  induction l with
  | nil => cases hm
  | cons a rest ih =>
    obtain ⟨k1, v1⟩ := a
    rw [validProps_cons, Bool.and_eq_true] at h
    rw [List.mem_cons] at hm
    rcases hm with rfl | hm
    · exact h.1
    · exact ih h.2 hm

theorem nodup_lookup {l : List (String × TypeInfo)} {k : String} {v : TypeInfo}
    (hnd : nodupKeys l = true) (hm : (k, v) ∈ l) : l.lookup k = some v := by
  induction l with
  | nil => cases hm
  | cons a rest ih =>
    obtain ⟨k1, v1⟩ := a
    simp only [nodupKeys, List.map_cons, List.nodup_cons, decide_eq_true_eq] at hnd
    rw [List.mem_cons] at hm
    rcases hm with heq | hm
    · rw [Prod.mk.injEq] at heq
      obtain ⟨rfl, rfl⟩ := heq
      simp [List.lookup]
    · have hk : k ≠ k1 := by
        intro hkk
        subst hkk
        exact hnd.1 (List.mem_map.mpr ⟨(k, v), hm, rfl⟩)
      have : (k == k1) = false := beq_eq_false_iff_ne.mpr hk
      simp only [List.lookup, this]
      exact ih (by simp [nodupKeys, hnd.2]) hm

theorem allAssignContra_refl (ps : List TypeInfo)
    (h : ∀ p ∈ ps, assignCore p p = true) : allAssignContra ps ps = true := by
  induction ps with
  | nil => simp
  | cons p rest ih =>
    rw [allAssignContra_cons_cons, Bool.and_eq_true]
    exact ⟨h p (by simp), ih fun q hq => h q (by simp [hq])⟩

theorem allAssign2_refl (es : List TypeInfo)
    (h : ∀ e ∈ es, assignCore e e = true) : allAssign2 es es = true := by
  induction es with
  | nil => simp
  | cons e rest ih =>
    rw [allAssign2_cons_cons, Bool.and_eq_true]
    exact ⟨h e (by simp), ih fun q hq => h q (by simp [hq])⟩

theorem propsAssign_refl (props : List (String × TypeInfo))
    (hnd : nodupKeys props = true)
    (h : ∀ kv ∈ props, assignCore kv.2 kv.2 = true) : propsAssign props props = true := by
  rw [propsAssign_eq_true_iff]
  intro kv hm
  obtain ⟨k, v⟩ := kv
  exact ⟨v, nodup_lookup hnd hm, h (k, v) hm⟩

theorem assignRefl_aux :
    ∀ (n : Nat) (t : TypeInfo), sizeOf t ≤ n → validTI t = true → assignCore t t = true := by
  intro n
  induction n with
  | zero =>
    intro t h
    have := one_le_sizeOf_TI t
    omega
  | succ n ih =>
    intro t h hv
    cases t with
    | Simple s => simp
    | Observable i => simp
    | Optional i => simp
    | Nullable i => simp
    | Class nm c m p => simp
    | Interface nm p => simp
    | Generic nm tps => simp
    | Enum nm vs => simp
    | IndexSignature k v => simp
    | Conditional c e tt f => simp
    | Mapped k v => simp
    | TemplateLiteral parts ts => simp
    | unknown => simp
    | Primitive p => simp
    | Literal v => simp
    | Array i =>
      rw [validTI] at hv
      rw [assignCore_Array]
      exact ih i (by simp only [TypeInfo.Array.sizeOf_spec] at h; omega) hv
    | ReadonlyArray i =>
      rw [validTI] at hv
      rw [assignCore_ReadonlyArray]
      exact ih i (by simp only [TypeInfo.ReadonlyArray.sizeOf_spec] at h; omega) hv
    | Set i =>
      rw [validTI] at hv
      rw [assignCore_Set]
      exact ih i (by simp only [TypeInfo.Set.sizeOf_spec] at h; omega) hv
    | Promise i =>
      rw [validTI] at hv
      rw [assignCore_Promise]
      exact ih i (by simp only [TypeInfo.Promise.sizeOf_spec] at h; omega) hv
    | PromiseLike i =>
      rw [validTI] at hv
      rw [assignCore_PromiseLike]
      exact ih i (by simp only [TypeInfo.PromiseLike.sizeOf_spec] at h; omega) hv
    | Map k v =>
      rw [validTI, Bool.and_eq_true] at hv
      rw [assignCore_Map, Bool.and_eq_true]
      simp only [TypeInfo.Map.sizeOf_spec] at h
      have hk := one_le_sizeOf_TI k
      have hvv := one_le_sizeOf_TI v
      exact ⟨ih k (by omega) hv.1, ih v (by omega) hv.2⟩
    | Record k v =>
      rw [validTI, Bool.and_eq_true] at hv
      rw [assignCore_Record, Bool.and_eq_true]
      simp only [TypeInfo.Record.sizeOf_spec] at h
      have hk := one_le_sizeOf_TI k
      have hvv := one_le_sizeOf_TI v
      exact ⟨ih k (by omega) hv.1, ih v (by omega) hv.2⟩
    | Union ts =>
      rw [validTI, Bool.and_eq_true] at hv
      obtain ⟨hne, hvl⟩ := hv
      cases ts with
      | nil => simp at hne
      | cons t0 rest =>
        have h0 : assignCore t0 t0 = true := by
          refine ih t0 ?_ (validList_mem hvl (by simp))
          simp only [TypeInfo.Union.sizeOf_spec, List.cons.sizeOf_spec] at h
          have := one_le_sizeOf_listTI rest
          omega
        rw [assignCore_Union, anyTargetCovered_cons]
        have : anyAssignFrom (t0 :: rest) t0 = true := by
          rw [anyAssignFrom_cons, h0, Bool.true_or]
        rw [this, Bool.true_or]
    | Intersection ts =>
      rw [validTI, Bool.and_eq_true] at hv
      obtain ⟨hne, hvl⟩ := hv
      rw [assignCore_Intersection, allTargetsCovered_eq_true_iff]
      intro t hm
      refine ⟨t, hm, ih t ?_ (validList_mem hvl hm)⟩
      have h1 := List.sizeOf_lt_of_mem hm
      simp only [TypeInfo.Intersection.sizeOf_spec] at h
      omega
    | Function ps r =>
      rw [validTI, Bool.and_eq_true] at hv
      obtain ⟨hvps, hvr⟩ := hv
      rw [assignCore_Function, areParametersCompatible_def]
      simp only [TypeInfo.Function.sizeOf_spec] at h
      have hps := one_le_sizeOf_listTI ps
      have hr : assignCore r r = true := ih r (by omega) hvr
      have hcontra : allAssignContra ps ps = true := by
        refine allAssignContra_refl ps fun p hp => ?_
        have h1 := List.sizeOf_lt_of_mem hp
        exact ih p (by omega) (validList_mem hvps hp)
      rw [hr, hcontra]
      simp
    | Tuple es =>
      rw [validTI] at hv
      rw [assignCore_Tuple]
      simp only [TypeInfo.Tuple.sizeOf_spec] at h
      have h2 : allAssign2 es es = true := by
        refine allAssign2_refl es fun e he => ?_
        have h1 := List.sizeOf_lt_of_mem he
        exact ih e (by omega) (validList_mem hv he)
      rw [h2]
      simp
    | Object props =>
      rw [validTI, Bool.and_eq_true] at hv
      obtain ⟨hnd, hvp⟩ := hv
      rw [assignCore_Object]
      refine propsAssign_refl props hnd fun kv hm => ?_
      have h1 := List.sizeOf_lt_of_mem hm
      obtain ⟨k, v⟩ := kv
      simp only [Prod.mk.sizeOf_spec] at h1
      simp only [TypeInfo.Object.sizeOf_spec] at h
      exact ih v (by omega) (validProps_mem hvp hm)

/-- Claim C9: `isAssignableTo` is reflexive on every tree satisfying the
data-model invariant (non-empty `Union`/`Intersection` member lists,
unique property-map keys). -/
theorem claimC9 (t : TypeInfo) (h : validTI t = true) :
    isAssignableTo (some t) (some t) = true := by
  rw [isAssignableTo_some_some]
  exact assignRefl_aux (sizeOf t) t le_rfl h

/-- Witness for C9 at a concrete valid tree containing a union, an object
and a function. -/
theorem claimC9_witness :
    isAssignableTo
      (some (.Object [(("f"), .Function [.Union [.Primitive .string, .unknown]] (.Primitive .number))]))
      (some (.Object [(("f"), .Function [.Union [.Primitive .string, .unknown]] (.Primitive .number))])) = true :=
  claimC9 (.Object [(("f"), .Function [.Union [.Primitive .string, .unknown]] (.Primitive .number))])
    (by rw [validTI]
        simp [validTI, validList, validProps, nodupKeys])

/-! ## Claim C8: termination of the recursive walks, with fuel bounds -/

set_option maxHeartbeats 1000000 in
@[simp] theorem depthList_nil : depthList [] = 0 := by rw [depthList]

@[simp] theorem depthList_cons (t : TypeInfo) (rest : List TypeInfo) :
    depthList (t :: rest) = max (depthTI t) (depthList rest) := by rw [depthList]

set_option maxHeartbeats 1000000 in
@[simp] theorem depthProps_nil : depthProps [] = 0 := by rw [depthProps]

@[simp] theorem depthProps_cons (k : String) (v : TypeInfo) (rest : List (String × TypeInfo)) :
    depthProps ((k, v) :: rest) = max (depthTI v) (depthProps rest) := by rw [depthProps]

@[simp] theorem depthTI_Simple (s : String) : depthTI (.Simple s) = 1 := by rw [depthTI]
@[simp] theorem depthTI_Primitive (p : PrimTag) : depthTI (.Primitive p) = 1 := by rw [depthTI]
@[simp] theorem depthTI_Literal (v : LitValue) : depthTI (.Literal v) = 1 := by rw [depthTI]
@[simp] theorem depthTI_Enum (n : String) (vs : List (String × EnumVal)) :
    depthTI (.Enum n vs) = 1 := by rw [depthTI]
@[simp] theorem depthTI_unknown : depthTI .unknown = 1 := by rw [depthTI]
@[simp] theorem depthTI_Array (i : TypeInfo) : depthTI (.Array i) = 1 + depthTI i := by rw [depthTI]
@[simp] theorem depthTI_ReadonlyArray (i : TypeInfo) :
    depthTI (.ReadonlyArray i) = 1 + depthTI i := by rw [depthTI]
@[simp] theorem depthTI_Set (i : TypeInfo) : depthTI (.Set i) = 1 + depthTI i := by rw [depthTI]
@[simp] theorem depthTI_Promise (i : TypeInfo) : depthTI (.Promise i) = 1 + depthTI i := by rw [depthTI]
@[simp] theorem depthTI_PromiseLike (i : TypeInfo) :
    depthTI (.PromiseLike i) = 1 + depthTI i := by rw [depthTI]
@[simp] theorem depthTI_Observable (i : TypeInfo) :
    depthTI (.Observable i) = 1 + depthTI i := by rw [depthTI]
@[simp] theorem depthTI_Map (k v : TypeInfo) :
    depthTI (.Map k v) = 1 + max (depthTI k) (depthTI v) := by rw [depthTI]
@[simp] theorem depthTI_Record (k v : TypeInfo) :
    depthTI (.Record k v) = 1 + max (depthTI k) (depthTI v) := by rw [depthTI]
@[simp] theorem depthTI_Union (ts : List TypeInfo) :
    depthTI (.Union ts) = 1 + depthList ts := by rw [depthTI]
@[simp] theorem depthTI_Intersection (ts : List TypeInfo) :
    depthTI (.Intersection ts) = 1 + depthList ts := by rw [depthTI]
@[simp] theorem depthTI_Optional (i : TypeInfo) :
    depthTI (.Optional i) = 1 + depthTI i := by rw [depthTI]
@[simp] theorem depthTI_Nullable (i : TypeInfo) :
    depthTI (.Nullable i) = 1 + depthTI i := by rw [depthTI]
@[simp] theorem depthTI_Function (ps : List TypeInfo) (r : TypeInfo) :
    depthTI (.Function ps r) = 1 + max (depthList ps) (depthTI r) := by rw [depthTI]
@[simp] theorem depthTI_Class (n : String) (c : TypeInfo) (m p : List (String × TypeInfo)) :
    depthTI (.Class n c m p) = 1 + max (depthTI c) (max (depthProps m) (depthProps p)) := by
  rw [depthTI]
@[simp] theorem depthTI_Interface (n : String) (p : List (String × TypeInfo)) :
    depthTI (.Interface n p) = 1 + depthProps p := by rw [depthTI]
@[simp] theorem depthTI_Generic (n : String) (tps : List TypeInfo) :
    depthTI (.Generic n tps) = 1 + depthList tps := by rw [depthTI]
@[simp] theorem depthTI_Tuple (es : List TypeInfo) :
    depthTI (.Tuple es) = 1 + depthList es := by rw [depthTI]
@[simp] theorem depthTI_Object (p : List (String × TypeInfo)) :
    depthTI (.Object p) = 1 + depthProps p := by rw [depthTI]
@[simp] theorem depthTI_IndexSignature (k v : TypeInfo) :
    depthTI (.IndexSignature k v) = 1 + max (depthTI k) (depthTI v) := by rw [depthTI]
@[simp] theorem depthTI_Conditional (c e tt f : TypeInfo) :
    depthTI (.Conditional c e tt f) =
      1 + max (max (depthTI c) (depthTI e)) (max (depthTI tt) (depthTI f)) := by rw [depthTI]
@[simp] theorem depthTI_Mapped (k v : TypeInfo) :
    depthTI (.Mapped k v) = 1 + max (depthTI k) (depthTI v) := by rw [depthTI]
@[simp] theorem depthTI_TemplateLiteral (parts : List String) (ts : List TypeInfo) :
    depthTI (.TemplateLiteral parts ts) = 1 + depthList ts := by rw [depthTI]

theorem one_le_depthTI (t : TypeInfo) : 1 ≤ depthTI t := by
  cases t <;> simp

theorem depthTI_le_depthList {t : TypeInfo} {ts : List TypeInfo} (h : t ∈ ts) :
    depthTI t ≤ depthList ts := by
  induction ts with
  | nil => cases h
  | cons a rest ih =>
    rw [List.mem_cons] at h
    rw [depthList_cons]
    rcases h with rfl | h
    · exact Nat.le_max_left _ _
    · exact Nat.le_trans (ih h) (Nat.le_max_right _ _)

theorem depthTI_le_depthProps {kv : String × TypeInfo} {l : List (String × TypeInfo)}
    (h : kv ∈ l) : depthTI kv.2 ≤ depthProps l := by
  induction l with
  | nil => cases h
  | cons a rest ih =>
    obtain ⟨k1, v1⟩ := a
    rw [List.mem_cons] at h
    rw [depthProps_cons]
    rcases h with rfl | h
    · exact Nat.le_max_left _ _
    · exact Nat.le_trans (ih h) (Nat.le_max_right _ _)

theorem lookup_depthProps {l : List (String × TypeInfo)} {k : String} {v : TypeInfo}
    (h : l.lookup k = some v) : depthTI v ≤ depthProps l := by
  induction l with
  | nil => simp [List.lookup] at h
  | cons a rest ih =>
    obtain ⟨k1, v1⟩ := a
    rw [depthProps_cons]
    by_cases hk : (k == k1) = true
    · simp only [List.lookup, hk] at h
      obtain rfl := Option.some.inj h
      exact Nat.le_max_left _ _
    · rw [Bool.not_eq_true] at hk
      simp only [List.lookup, hk] at h
      exact Nat.le_trans (ih h) (Nat.le_max_right _ _)

theorem resolveUnionList_eq_find (ts : List TypeInfo) :
    resolveUnionList ts =
      (match ts.find? (fun x => x.kind != "unknown") with
       | some nt => resolveDeepestType (some nt)
       | none => ts.head?) := by
  induction ts with
  | nil => simp
  | cons t rest ih =>
    rw [resolveUnionList_cons]
    by_cases hk : ((t.kind != "unknown") = true)
    · rw [if_pos hk, List.find?_cons]
      simp only [hk]
    · rw [if_neg hk]
      rw [Bool.not_eq_true] at hk
      rw [List.find?_cons]
      simp only [hk]
      by_cases ha : anyNonUnknown rest = true
      · rw [if_pos ha]
        have hsome : (rest.find? (fun x => x.kind != "unknown")).isSome := by
          rw [List.find?_isSome]
          simpa [anyNonUnknown, List.any_eq_true] using ha
        obtain ⟨nt, hnt⟩ := Option.isSome_iff_exists.mp hsome
        rw [ih, hnt]
      · rw [if_neg ha]
        have hnone : rest.find? (fun x => x.kind != "unknown") = none := by
          rw [List.find?_eq_none]
          intro x hx
          rw [Bool.not_eq_true] at ha
          simp only [anyNonUnknown, List.any_eq_false] at ha
          simpa using ha x hx
        rw [hnone]
        simp

theorem resolveLast_eq_getLast (ts : List TypeInfo) :
    resolveLast ts =
      (match ts.getLast? with
       | some x => resolveDeepestType (some x)
       | none => none) := by
  induction ts with
  | nil => simp
  | cons a rest ih =>
    cases rest with
    | nil => simp
    | cons b rest2 =>
      rw [resolveLast_cons2, ih, List.getLast?_cons_cons]

set_option maxHeartbeats 1000000 in
@[simp] theorem resolveDeepestTypeF_none (fuel : Nat) :
    resolveDeepestTypeF fuel none = none := by
  cases fuel <;> rw [resolveDeepestTypeF]

theorem resolveF_spec :
    ∀ (fuel : Nat) (t : TypeInfo), depthTI t ≤ fuel →
      resolveDeepestTypeF fuel (some t) = resolveDeepestType (some t) := by
  intro fuel
  induction fuel with
  | zero =>
    intro t h
    have := one_le_depthTI t
    omega
  | succ fuel ih =>
    intro t h
    cases t with
    | Simple s => rw [resolveDeepestTypeF] <;> simp
    | Primitive p => rw [resolveDeepestTypeF] <;> simp
    | Literal v => rw [resolveDeepestTypeF] <;> simp
    | Enum nm vs => rw [resolveDeepestTypeF] <;> simp
    | IndexSignature k v => rw [resolveDeepestTypeF] <;> simp
    | unknown => rw [resolveDeepestTypeF] <;> simp
    | Class nm c m p => rw [resolveDeepestTypeF] <;> simp
    | Interface nm p => rw [resolveDeepestTypeF] <;> simp
    | Object p => rw [resolveDeepestTypeF] <;> simp
    | Array i =>
      rw [resolveDeepestTypeF]
      simp only [depthTI_Array] at h
      simp only [resolveDeepestType_Array]
      exact ih i (by omega)
    | ReadonlyArray i =>
      rw [resolveDeepestTypeF]
      simp only [depthTI_ReadonlyArray] at h
      simp only [resolveDeepestType_ReadonlyArray]
      exact ih i (by omega)
    | Set i =>
      rw [resolveDeepestTypeF]
      simp only [depthTI_Set] at h
      simp only [resolveDeepestType_Set]
      exact ih i (by omega)
    | Promise i =>
      rw [resolveDeepestTypeF]
      simp only [depthTI_Promise] at h
      simp only [resolveDeepestType_Promise]
      exact ih i (by omega)
    | PromiseLike i =>
      rw [resolveDeepestTypeF]
      simp only [depthTI_PromiseLike] at h
      simp only [resolveDeepestType_PromiseLike]
      exact ih i (by omega)
    | Observable i =>
      rw [resolveDeepestTypeF]
      simp only [depthTI_Observable] at h
      simp only [resolveDeepestType_Observable]
      exact ih i (by omega)
    | Map k v =>
      rw [resolveDeepestTypeF]
      simp only [depthTI_Map] at h
      simp only [resolveDeepestType_Map]
      exact ih v (by omega)
    | Record k v =>
      rw [resolveDeepestTypeF]
      simp only [depthTI_Record] at h
      simp only [resolveDeepestType_Record]
      exact ih v (by omega)
    | Optional i =>
      rw [resolveDeepestTypeF]
      simp only [depthTI_Optional] at h
      simp only [resolveDeepestType_Optional]
      exact ih i (by omega)
    | Nullable i =>
      rw [resolveDeepestTypeF]
      simp only [depthTI_Nullable] at h
      simp only [resolveDeepestType_Nullable]
      exact ih i (by omega)
    | Function ps r =>
      rw [resolveDeepestTypeF]
      simp only [depthTI_Function] at h
      simp only [resolveDeepestType_Function]
      exact ih r (by omega)
    | Conditional c e tt f =>
      rw [resolveDeepestTypeF]
      simp only [depthTI_Conditional] at h
      simp only [resolveDeepestType_Conditional]
      exact ih tt (by omega)
    | Mapped k v =>
      rw [resolveDeepestTypeF]
      simp only [depthTI_Mapped] at h
      simp only [resolveDeepestType_Mapped]
      exact ih v (by omega)
    | Union ts =>
      rw [resolveDeepestTypeF]
      simp only [depthTI_Union] at h
      rw [resolveDeepestType_Union, resolveUnionList_eq_find]
      cases hf : ts.find? (fun x => x.kind != "unknown") with
      | none => simp
      | some nt =>
        simp only []
        have hmem := List.mem_of_find?_eq_some hf
        have hd := depthTI_le_depthList hmem
        exact ih nt (by omega)
    | Intersection ts =>
      rw [resolveDeepestTypeF]
      simp only [depthTI_Intersection] at h
      rw [resolveDeepestType_Intersection, resolveLast_eq_getLast]
      cases hg : ts.getLast? with
      | none => simp
      | some x =>
        simp only []
        have hmem : x ∈ ts := by
          obtain ⟨l2, rfl⟩ := List.getLast?_eq_some_iff.mp hg
          simp
        have hd := depthTI_le_depthList hmem
        exact ih x (by omega)
    | Generic nm tps =>
      rw [resolveDeepestTypeF]
      simp only [depthTI_Generic] at h
      cases tps with
      | nil => simp
      | cons tp rest =>
        simp only [List.head?_cons, resolveDeepestType_Generic_cons]
        have hd := depthTI_le_depthList (List.mem_cons_self tp rest)
        simp only [depthList_cons] at h ⊢
        exact ih tp (by omega)
    | Tuple es =>
      rw [resolveDeepestTypeF]
      simp only [depthTI_Tuple] at h
      cases es with
      | nil => simp
      | cons e rest =>
        simp only [List.head?_cons, resolveDeepestType_Tuple_cons]
        simp only [depthList_cons] at h
        have := one_le_depthTI e
        exact ih e (by omega)
    | TemplateLiteral parts ts =>
      rw [resolveDeepestTypeF]
      simp only [depthTI_TemplateLiteral] at h
      cases ts with
      | nil => simp
      | cons x rest =>
        simp only [List.head?_cons, resolveDeepestType_TemplateLiteral_cons]
        simp only [depthList_cons] at h
        exact ih x (by omega)

set_option maxHeartbeats 4000000 in
theorem printTreeListF_bridge (fuel : Nat)
    (ih : ∀ (t : TypeInfo) (d : Nat), depthTI t ≤ fuel →
      printTypeTreeF fuel (some t) d = printTypeTree (some t) d)
    (ts : List TypeInfo) (hts : ∀ t ∈ ts, depthTI t ≤ fuel) (d : Nat) :
    printTreeListF fuel ts d = printTreeList ts d := by
  induction ts with
  | nil => rw [printTreeListF, printTreeList]
  | cons t rest ihl =>
    cases rest with
    | nil =>
      rw [printTreeListF, printTreeList]
      exact ih t d (hts t (by simp))
    | cons b rest2 =>
      rw [printTreeListF, printTreeList, ih t d (hts t (by simp)),
        ihl fun x hx => hts x (by simp [hx])]
      all_goals simp

set_option maxHeartbeats 4000000 in
theorem printTreePropsF_bridge (fuel : Nat)
    (ih : ∀ (t : TypeInfo) (d : Nat), depthTI t ≤ fuel →
      printTypeTreeF fuel (some t) d = printTypeTree (some t) d)
    (props : List (String × TypeInfo))
    (hts : ∀ kv ∈ props, depthTI kv.2 ≤ fuel) (d : Nat) :
    printTreePropsF fuel props d = printTreeProps props d := by
  induction props with
  | nil => rw [printTreePropsF, printTreeProps]
  | cons kv rest ihl =>
    obtain ⟨k, v⟩ := kv
    cases rest with
    | nil =>
      rw [printTreePropsF, printTreeProps]
      exact congrArg _ (ih v (d + 2) (hts (k, v) (by simp)))
    | cons b rest2 =>
      rw [printTreePropsF, printTreeProps, ih v (d + 2) (hts (k, v) (by simp)),
        ihl fun x hx => hts x (by simp [hx])]
      all_goals simp

set_option maxHeartbeats 4000000 in
theorem printF_spec :
    ∀ (fuel : Nat) (t : TypeInfo) (d : Nat), depthTI t ≤ fuel →
      printTypeTreeF fuel (some t) d = printTypeTree (some t) d := by
  intro fuel
  induction fuel with
  | zero =>
    intro t d h
    have := one_le_depthTI t
    omega
  | succ fuel ih =>
    intro t d h
    cases t with
    | Simple s => rw [printTypeTreeF, printTypeTree]
    | Primitive p => rw [printTypeTreeF, printTypeTree]
    | Literal v => rw [printTypeTreeF, printTypeTree]
    | Enum nm vs => rw [printTypeTreeF, printTypeTree]
    | unknown => rw [printTypeTreeF, printTypeTree]
    | Class nm c m p => rw [printTypeTreeF, printTypeTree]
    | Interface nm p => rw [printTypeTreeF, printTypeTree]
    | Array i =>
      simp only [depthTI_Array] at h
      rw [printTypeTreeF, printTypeTree, ih i (d + 2) (by omega)]
    | ReadonlyArray i =>
      simp only [depthTI_ReadonlyArray] at h
      rw [printTypeTreeF, printTypeTree, ih i (d + 2) (by omega)]
    | Set i =>
      simp only [depthTI_Set] at h
      rw [printTypeTreeF, printTypeTree, ih i (d + 2) (by omega)]
    | Promise i =>
      simp only [depthTI_Promise] at h
      rw [printTypeTreeF, printTypeTree, ih i (d + 2) (by omega)]
    | PromiseLike i =>
      simp only [depthTI_PromiseLike] at h
      rw [printTypeTreeF, printTypeTree, ih i (d + 2) (by omega)]
    | Observable i =>
      simp only [depthTI_Observable] at h
      rw [printTypeTreeF, printTypeTree, ih i (d + 2) (by omega)]
    | Map k v =>
      simp only [depthTI_Map] at h
      rw [printTypeTreeF, printTypeTree, ih k (d + 2) (by omega), ih v (d + 2) (by omega)]
    | Record k v =>
      simp only [depthTI_Record] at h
      rw [printTypeTreeF, printTypeTree, ih k (d + 2) (by omega), ih v (d + 2) (by omega)]
    | Optional i =>
      simp only [depthTI_Optional] at h
      rw [printTypeTreeF, printTypeTree, ih i (d + 2) (by omega)]
    | Nullable i =>
      simp only [depthTI_Nullable] at h
      rw [printTypeTreeF, printTypeTree, ih i (d + 2) (by omega)]
    | Union ts =>
      simp only [depthTI_Union] at h
      rw [printTypeTreeF, printTypeTree,
        printTreeListF_bridge fuel ih ts
          (fun x hx => by have := depthTI_le_depthList hx; omega) (d + 2)]
    | Intersection ts =>
      simp only [depthTI_Intersection] at h
      rw [printTypeTreeF, printTypeTree,
        printTreeListF_bridge fuel ih ts
          (fun x hx => by have := depthTI_le_depthList hx; omega) (d + 2)]
    | Function ps r =>
      simp only [depthTI_Function] at h
      rw [printTypeTreeF, printTypeTree,
        printTreeListF_bridge fuel ih ps
          (fun x hx => by have := depthTI_le_depthList hx; omega) (d + 2),
        ih r (d + 2) (by omega)]
    | Generic nm tps =>
      simp only [depthTI_Generic] at h
      rw [printTypeTreeF, printTypeTree,
        printTreeListF_bridge fuel ih tps
          (fun x hx => by have := depthTI_le_depthList hx; omega) (d + 2)]
    | Tuple es =>
      simp only [depthTI_Tuple] at h
      rw [printTypeTreeF, printTypeTree,
        printTreeListF_bridge fuel ih es
          (fun x hx => by have := depthTI_le_depthList hx; omega) (d + 2)]
    | Object props =>
      simp only [depthTI_Object] at h
      rw [printTypeTreeF, printTypeTree,
        printTreePropsF_bridge fuel ih props
          (fun kv hkv => by have := depthTI_le_depthProps hkv; omega) d]
    | IndexSignature k v =>
      simp only [depthTI_IndexSignature] at h
      rw [printTypeTreeF, printTypeTree, ih k (d + 2) (by omega), ih v (d + 2) (by omega)]
    | Conditional c e tt f =>
      simp only [depthTI_Conditional] at h
      rw [printTypeTreeF, printTypeTree, ih c (d + 2) (by omega), ih e (d + 2) (by omega),
        ih tt (d + 2) (by omega), ih f (d + 2) (by omega)]
    | Mapped k v =>
      simp only [depthTI_Mapped] at h
      rw [printTypeTreeF, printTypeTree, ih k (d + 2) (by omega), ih v (d + 2) (by omega)]
    | TemplateLiteral parts ts =>
      simp only [depthTI_TemplateLiteral] at h
      rw [printTypeTreeF, printTypeTree,
        printTreeListF_bridge fuel ih ts
          (fun x hx => by have := depthTI_le_depthList hx; omega) (d + 2)]

/-! ## Equations and correspondence lemmas for the fueled engine -/

set_option maxHeartbeats 1000000 in
@[simp] theorem assignCoreF_zero (a b : TypeInfo) : assignCoreF 0 a b = false := by
  rw [assignCoreF]

theorem assignCoreF_succ (fuel : Nat) (a b : TypeInfo) :
    assignCoreF (fuel + 1) a b =
      (if a.kind == b.kind then sameKindAssignF fuel a b else crossKindAssignF fuel a b) := by
  rw [assignCoreF]

set_option maxHeartbeats 1000000 in
@[simp] theorem anyAssignFromF_nil (fuel : Nat) (t : TypeInfo) :
    anyAssignFromF fuel [] t = false := by rw [anyAssignFromF]

@[simp] theorem anyAssignFromF_cons (fuel : Nat) (s : TypeInfo) (rest : List TypeInfo) (t : TypeInfo) :
    anyAssignFromF fuel (s :: rest) t = (assignCoreF fuel s t || anyAssignFromF fuel rest t) := by
  rw [anyAssignFromF]

set_option maxHeartbeats 1000000 in
@[simp] theorem anyTargetCoveredF_nil (fuel : Nat) (ss : List TypeInfo) :
    anyTargetCoveredF fuel ss [] = false := by rw [anyTargetCoveredF]

@[simp] theorem anyTargetCoveredF_cons (fuel : Nat) (ss : List TypeInfo) (t : TypeInfo)
    (rest : List TypeInfo) :
    anyTargetCoveredF fuel ss (t :: rest) =
      (anyAssignFromF fuel ss t || anyTargetCoveredF fuel ss rest) := by
  rw [anyTargetCoveredF]

set_option maxHeartbeats 1000000 in
@[simp] theorem allTargetsCoveredF_nil (fuel : Nat) (ss : List TypeInfo) :
    allTargetsCoveredF fuel ss [] = true := by rw [allTargetsCoveredF]

@[simp] theorem allTargetsCoveredF_cons (fuel : Nat) (ss : List TypeInfo) (t : TypeInfo)
    (rest : List TypeInfo) :
    allTargetsCoveredF fuel ss (t :: rest) =
      (anyAssignFromF fuel ss t && allTargetsCoveredF fuel ss rest) := by
  rw [allTargetsCoveredF]

set_option maxHeartbeats 1000000 in
@[simp] theorem anyUnionMemberF_nil (fuel : Nat) (a : TypeInfo) :
    anyUnionMemberF fuel a [] = false := by rw [anyUnionMemberF]

@[simp] theorem anyUnionMemberF_cons (fuel : Nat) (a t : TypeInfo) (rest : List TypeInfo) :
    anyUnionMemberF fuel a (t :: rest) =
      (assignCoreF fuel a t || anyUnionMemberF fuel a rest) := by
  rw [anyUnionMemberF]

set_option maxHeartbeats 1000000 in
@[simp] theorem allIntersectionMembersF_nil (fuel : Nat) (b : TypeInfo) :
    allIntersectionMembersF fuel [] b = true := by rw [allIntersectionMembersF]

@[simp] theorem allIntersectionMembersF_cons (fuel : Nat) (s : TypeInfo) (rest : List TypeInfo)
    (b : TypeInfo) :
    allIntersectionMembersF fuel (s :: rest) b =
      (assignCoreF fuel s b && allIntersectionMembersF fuel rest b) := by
  rw [allIntersectionMembersF]

set_option maxHeartbeats 1000000 in
@[simp] theorem allAssign2F_nil (fuel : Nat) (es2 : List TypeInfo) :
    allAssign2F fuel [] es2 = true := by rw [allAssign2F]

@[simp] theorem allAssign2F_cons_nil (fuel : Nat) (e1 : TypeInfo) (r1 : List TypeInfo) :
    allAssign2F fuel (e1 :: r1) [] = false := by rw [allAssign2F]

@[simp] theorem allAssign2F_cons_cons (fuel : Nat) (e1 e2 : TypeInfo) (r1 r2 : List TypeInfo) :
    allAssign2F fuel (e1 :: r1) (e2 :: r2) =
      (assignCoreF fuel e1 e2 && allAssign2F fuel r1 r2) := by
  rw [allAssign2F]

set_option maxHeartbeats 1000000 in
@[simp] theorem allAssignContraF_nil (fuel : Nat) (ps2 : List TypeInfo) :
    allAssignContraF fuel [] ps2 = true := by rw [allAssignContraF]

@[simp] theorem allAssignContraF_cons_nil (fuel : Nat) (p1 : TypeInfo) (r1 : List TypeInfo) :
    allAssignContraF fuel (p1 :: r1) [] = false := by rw [allAssignContraF]

@[simp] theorem allAssignContraF_cons_cons (fuel : Nat) (p1 p2 : TypeInfo) (r1 r2 : List TypeInfo) :
    allAssignContraF fuel (p1 :: r1) (p2 :: r2) =
      (assignCoreF fuel p2 p1 && allAssignContraF fuel r1 r2) := by
  rw [allAssignContraF]

set_option maxHeartbeats 1000000 in
theorem areParametersCompatibleF_def (fuel : Nat) (ps1 ps2 : List TypeInfo) :
    areParametersCompatibleF fuel ps1 ps2 =
      (ps1.length == ps2.length && allAssignContraF fuel ps1 ps2) := by
  rw [areParametersCompatibleF]

set_option maxHeartbeats 1000000 in
@[simp] theorem lookupAssignF_nil (fuel : Nat) (k : String) (v2 : TypeInfo) :
    lookupAssignF fuel [] k v2 = false := by rw [lookupAssignF]

@[simp] theorem lookupAssignF_cons (fuel : Nat) (k1 : String) (v1 : TypeInfo)
    (rest : List (String × TypeInfo)) (k : String) (v2 : TypeInfo) :
    lookupAssignF fuel ((k1, v1) :: rest) k v2 =
      (if k == k1 then assignCoreF fuel v1 v2 else lookupAssignF fuel rest k v2) := by
  rw [lookupAssignF]

set_option maxHeartbeats 1000000 in
@[simp] theorem propsAssignF_nil (fuel : Nat) (p1 : List (String × TypeInfo)) :
    propsAssignF fuel p1 [] = true := by rw [propsAssignF]

@[simp] theorem propsAssignF_cons (fuel : Nat) (p1 : List (String × TypeInfo)) (k : String)
    (v2 : TypeInfo) (rest : List (String × TypeInfo)) :
    propsAssignF fuel p1 ((k, v2) :: rest) =
      (lookupAssignF fuel p1 k v2 && propsAssignF fuel p1 rest) := by
  rw [propsAssignF]

theorem anyAssignFromF_spec (fuel : Nat)
    (ih : ∀ x y, depthTI x + depthTI y ≤ fuel → assignCoreF fuel x y = assignCore x y)
    (ss : List TypeInfo) (t : TypeInfo) (hb : ∀ s ∈ ss, depthTI s + depthTI t ≤ fuel) :
    anyAssignFromF fuel ss t = anyAssignFrom ss t := by
  induction ss with
  | nil => simp
  | cons s rest ihl =>
    rw [anyAssignFromF_cons, anyAssignFrom_cons, ih s t (hb s (by simp)),
      ihl fun x hx => hb x (by simp [hx])]

theorem anyTargetCoveredF_spec (fuel : Nat)
    (ih : ∀ x y, depthTI x + depthTI y ≤ fuel → assignCoreF fuel x y = assignCore x y)
    (ss ts : List TypeInfo) (hb : ∀ s ∈ ss, ∀ t ∈ ts, depthTI s + depthTI t ≤ fuel) :
    anyTargetCoveredF fuel ss ts = anyTargetCovered ss ts := by
  induction ts with
  | nil => simp
  | cons t rest ihl =>
    rw [anyTargetCoveredF_cons, anyTargetCovered_cons,
      anyAssignFromF_spec fuel ih ss t (fun s hs => hb s hs t (by simp)),
      ihl fun s hs x hx => hb s hs x (by simp [hx])]

theorem allTargetsCoveredF_spec (fuel : Nat)
    (ih : ∀ x y, depthTI x + depthTI y ≤ fuel → assignCoreF fuel x y = assignCore x y)
    (ss ts : List TypeInfo) (hb : ∀ s ∈ ss, ∀ t ∈ ts, depthTI s + depthTI t ≤ fuel) :
    allTargetsCoveredF fuel ss ts = allTargetsCovered ss ts := by
  induction ts with
  | nil => simp
  | cons t rest ihl =>
    rw [allTargetsCoveredF_cons, allTargetsCovered_cons,
      anyAssignFromF_spec fuel ih ss t (fun s hs => hb s hs t (by simp)),
      ihl fun s hs x hx => hb s hs x (by simp [hx])]

theorem anyUnionMemberF_spec (fuel : Nat)
    (ih : ∀ x y, depthTI x + depthTI y ≤ fuel → assignCoreF fuel x y = assignCore x y)
    (a : TypeInfo) (ts : List TypeInfo) (hb : ∀ x ∈ ts, depthTI a + depthTI x ≤ fuel) :
    anyUnionMemberF fuel a ts = anyUnionMember a ts := by
  induction ts with
  | nil => simp
  | cons t rest ihl =>
    rw [anyUnionMemberF_cons, anyUnionMember_cons, ih a t (hb t (by simp)),
      ihl fun x hx => hb x (by simp [hx])]

theorem allIntersectionMembersF_spec (fuel : Nat)
    (ih : ∀ x y, depthTI x + depthTI y ≤ fuel → assignCoreF fuel x y = assignCore x y)
    (ss : List TypeInfo) (b : TypeInfo) (hb : ∀ s ∈ ss, depthTI s + depthTI b ≤ fuel) :
    allIntersectionMembersF fuel ss b = allIntersectionMembers ss b := by
  induction ss with
  | nil => simp
  | cons s rest ihl =>
    rw [allIntersectionMembersF_cons, allIntersectionMembers_cons, ih s b (hb s (by simp)),
      ihl fun x hx => hb x (by simp [hx])]

theorem allAssign2F_spec (fuel : Nat)
    (ih : ∀ x y, depthTI x + depthTI y ≤ fuel → assignCoreF fuel x y = assignCore x y)
    (es1 es2 : List TypeInfo) (hb : ∀ p ∈ es1, ∀ q ∈ es2, depthTI p + depthTI q ≤ fuel) :
    allAssign2F fuel es1 es2 = allAssign2 es1 es2 := by
  induction es1 generalizing es2 with
  | nil => simp
  | cons e1 r1 ihl =>
    cases es2 with
    | nil => simp
    | cons e2 r2 =>
      rw [allAssign2F_cons_cons, allAssign2_cons_cons,
        ih e1 e2 (hb e1 (by simp) e2 (by simp)),
        ihl r2 fun p hp q hq => hb p (by simp [hp]) q (by simp [hq])]

theorem allAssignContraF_spec (fuel : Nat)
    (ih : ∀ x y, depthTI x + depthTI y ≤ fuel → assignCoreF fuel x y = assignCore x y)
    (ps1 ps2 : List TypeInfo) (hb : ∀ p ∈ ps1, ∀ q ∈ ps2, depthTI q + depthTI p ≤ fuel) :
    allAssignContraF fuel ps1 ps2 = allAssignContra ps1 ps2 := by
  induction ps1 generalizing ps2 with
  | nil => simp
  | cons p1 r1 ihl =>
    cases ps2 with
    | nil => simp
    | cons p2 r2 =>
      rw [allAssignContraF_cons_cons, allAssignContra_cons_cons,
        ih p2 p1 (hb p1 (by simp) p2 (by simp)),
        ihl r2 fun p hp q hq => hb p (by simp [hp]) q (by simp [hq])]

theorem areParametersCompatibleF_spec (fuel : Nat)
    (ih : ∀ x y, depthTI x + depthTI y ≤ fuel → assignCoreF fuel x y = assignCore x y)
    (ps1 ps2 : List TypeInfo) (hb : ∀ p ∈ ps1, ∀ q ∈ ps2, depthTI q + depthTI p ≤ fuel) :
    areParametersCompatibleF fuel ps1 ps2 = areParametersCompatible ps1 ps2 := by
  rw [areParametersCompatibleF_def, areParametersCompatible_def,
    allAssignContraF_spec fuel ih ps1 ps2 hb]

theorem lookupAssignF_spec (fuel : Nat)
    (ih : ∀ x y, depthTI x + depthTI y ≤ fuel → assignCoreF fuel x y = assignCore x y)
    (p1 : List (String × TypeInfo)) (k : String) (v2 : TypeInfo)
    (hb : ∀ kv ∈ p1, depthTI kv.2 + depthTI v2 ≤ fuel) :
    lookupAssignF fuel p1 k v2 = lookupAssign p1 k v2 := by
  induction p1 with
  | nil => simp
  | cons kv rest ihl =>
    obtain ⟨k1, v1⟩ := kv
    rw [lookupAssignF_cons, lookupAssign_cons]
    by_cases hk : (k == k1) = true
    · rw [if_pos hk, if_pos hk, ih v1 v2 (hb (k1, v1) (by simp))]
    · rw [if_neg hk, if_neg hk, ihl fun x hx => hb x (by simp [hx])]

theorem propsAssignF_spec (fuel : Nat)
    (ih : ∀ x y, depthTI x + depthTI y ≤ fuel → assignCoreF fuel x y = assignCore x y)
    (p1 p2 : List (String × TypeInfo))
    (hb : ∀ kv1 ∈ p1, ∀ kv ∈ p2, depthTI kv1.2 + depthTI kv.2 ≤ fuel) :
    propsAssignF fuel p1 p2 = propsAssign p1 p2 := by
  induction p2 with
  | nil => simp
  | cons kv rest ihl =>
    obtain ⟨k, v2⟩ := kv
    rw [propsAssignF_cons, propsAssign_cons,
      lookupAssignF_spec fuel ih p1 k v2 (fun x hx => hb x hx (k, v2) (by simp)),
      ihl fun kv1 h1 kv h2 => hb kv1 h1 kv (by simp [h2])]

/-! ## Kind-based inversion lemmas -/

theorem kind_inv_Simple (b : TypeInfo) (h : b.kind = ("Simple")) :
    ∃ s, b = .Simple s := by
  cases b <;> simp only [TypeInfo.kind] at h <;> first | exact ⟨_, rfl⟩ | exact absurd h (by decide)

theorem kind_inv_Primitive (b : TypeInfo) (h : b.kind = ("Primitive")) :
    ∃ p, b = .Primitive p := by
  cases b <;> simp only [TypeInfo.kind] at h <;> first | exact ⟨_, rfl⟩ | exact absurd h (by decide)

theorem kind_inv_Array (b : TypeInfo) (h : b.kind = ("Array")) :
    ∃ i, b = .Array i := by
  cases b <;> simp only [TypeInfo.kind] at h <;> first | exact ⟨_, rfl⟩ | exact absurd h (by decide)

theorem kind_inv_ReadonlyArray (b : TypeInfo) (h : b.kind = ("ReadonlyArray")) :
    ∃ i, b = .ReadonlyArray i := by
  cases b <;> simp only [TypeInfo.kind] at h <;> first | exact ⟨_, rfl⟩ | exact absurd h (by decide)

theorem kind_inv_Set (b : TypeInfo) (h : b.kind = ("Set")) :
    ∃ i, b = .Set i := by
  cases b <;> simp only [TypeInfo.kind] at h <;> first | exact ⟨_, rfl⟩ | exact absurd h (by decide)

theorem kind_inv_Promise (b : TypeInfo) (h : b.kind = ("Promise")) :
    ∃ i, b = .Promise i := by
  cases b <;> simp only [TypeInfo.kind] at h <;> first | exact ⟨_, rfl⟩ | exact absurd h (by decide)

theorem kind_inv_PromiseLike (b : TypeInfo) (h : b.kind = ("PromiseLike")) :
    ∃ i, b = .PromiseLike i := by
  cases b <;> simp only [TypeInfo.kind] at h <;> first | exact ⟨_, rfl⟩ | exact absurd h (by decide)

theorem kind_inv_Observable (b : TypeInfo) (h : b.kind = ("Observable")) :
    ∃ i, b = .Observable i := by
  cases b <;> simp only [TypeInfo.kind] at h <;> first | exact ⟨_, rfl⟩ | exact absurd h (by decide)

theorem kind_inv_Map (b : TypeInfo) (h : b.kind = ("Map")) :
    ∃ k v, b = .Map k v := by
  cases b <;> simp only [TypeInfo.kind] at h <;> first | exact ⟨_, _, rfl⟩ | exact absurd h (by decide)

theorem kind_inv_Record (b : TypeInfo) (h : b.kind = ("Record")) :
    ∃ k v, b = .Record k v := by
  cases b <;> simp only [TypeInfo.kind] at h <;> first | exact ⟨_, _, rfl⟩ | exact absurd h (by decide)

theorem kind_inv_Union (b : TypeInfo) (h : b.kind = ("Union")) :
    ∃ ts, b = .Union ts := by
  cases b <;> simp only [TypeInfo.kind] at h <;> first | exact ⟨_, rfl⟩ | exact absurd h (by decide)

theorem kind_inv_Intersection (b : TypeInfo) (h : b.kind = ("Intersection")) :
    ∃ ts, b = .Intersection ts := by
  cases b <;> simp only [TypeInfo.kind] at h <;> first | exact ⟨_, rfl⟩ | exact absurd h (by decide)

theorem kind_inv_Optional (b : TypeInfo) (h : b.kind = ("Optional")) :
    ∃ i, b = .Optional i := by
  cases b <;> simp only [TypeInfo.kind] at h <;> first | exact ⟨_, rfl⟩ | exact absurd h (by decide)

theorem kind_inv_Nullable (b : TypeInfo) (h : b.kind = ("Nullable")) :
    ∃ i, b = .Nullable i := by
  cases b <;> simp only [TypeInfo.kind] at h <;> first | exact ⟨_, rfl⟩ | exact absurd h (by decide)

theorem kind_inv_Function (b : TypeInfo) (h : b.kind = ("Function")) :
    ∃ ps r, b = .Function ps r := by
  cases b <;> simp only [TypeInfo.kind] at h <;> first | exact ⟨_, _, rfl⟩ | exact absurd h (by decide)

theorem kind_inv_Class (b : TypeInfo) (h : b.kind = ("Class")) :
    ∃ n c m p, b = .Class n c m p := by
  cases b <;> simp only [TypeInfo.kind] at h <;> first | exact ⟨_, _, _, _, rfl⟩ | exact absurd h (by decide)

theorem kind_inv_Interface (b : TypeInfo) (h : b.kind = ("Interface")) :
    ∃ n p, b = .Interface n p := by
  cases b <;> simp only [TypeInfo.kind] at h <;> first | exact ⟨_, _, rfl⟩ | exact absurd h (by decide)

theorem kind_inv_Generic (b : TypeInfo) (h : b.kind = ("Generic")) :
    ∃ n tps, b = .Generic n tps := by
  cases b <;> simp only [TypeInfo.kind] at h <;> first | exact ⟨_, _, rfl⟩ | exact absurd h (by decide)

theorem kind_inv_Literal (b : TypeInfo) (h : b.kind = ("Literal")) :
    ∃ v, b = .Literal v := by
  cases b <;> simp only [TypeInfo.kind] at h <;> first | exact ⟨_, rfl⟩ | exact absurd h (by decide)

theorem kind_inv_Enum (b : TypeInfo) (h : b.kind = ("Enum")) :
    ∃ n vs, b = .Enum n vs := by
  cases b <;> simp only [TypeInfo.kind] at h <;> first | exact ⟨_, _, rfl⟩ | exact absurd h (by decide)

theorem kind_inv_Tuple (b : TypeInfo) (h : b.kind = ("Tuple")) :
    ∃ es, b = .Tuple es := by
  cases b <;> simp only [TypeInfo.kind] at h <;> first | exact ⟨_, rfl⟩ | exact absurd h (by decide)

theorem kind_inv_Object (b : TypeInfo) (h : b.kind = ("Object")) :
    ∃ p, b = .Object p := by
  cases b <;> simp only [TypeInfo.kind] at h <;> first | exact ⟨_, rfl⟩ | exact absurd h (by decide)

theorem kind_inv_IndexSignature (b : TypeInfo) (h : b.kind = ("IndexSignature")) :
    ∃ k v, b = .IndexSignature k v := by
  cases b <;> simp only [TypeInfo.kind] at h <;> first | exact ⟨_, _, rfl⟩ | exact absurd h (by decide)

theorem kind_inv_Conditional (b : TypeInfo) (h : b.kind = ("Conditional")) :
    ∃ c e t f, b = .Conditional c e t f := by
  cases b <;> simp only [TypeInfo.kind] at h <;> first | exact ⟨_, _, _, _, rfl⟩ | exact absurd h (by decide)

theorem kind_inv_Mapped (b : TypeInfo) (h : b.kind = ("Mapped")) :
    ∃ k v, b = .Mapped k v := by
  cases b <;> simp only [TypeInfo.kind] at h <;> first | exact ⟨_, _, rfl⟩ | exact absurd h (by decide)

theorem kind_inv_TemplateLiteral (b : TypeInfo) (h : b.kind = ("TemplateLiteral")) :
    ∃ parts ts, b = .TemplateLiteral parts ts := by
  cases b <;> simp only [TypeInfo.kind] at h <;> first | exact ⟨_, _, rfl⟩ | exact absurd h (by decide)

theorem kind_inv_unknown (b : TypeInfo) (h : b.kind = ("unknown")) :
    b = .unknown := by
  cases b <;> simp only [TypeInfo.kind] at h <;> first | rfl | exact absurd h (by decide)

set_option maxHeartbeats 4000000 in
theorem sameF_spec (fuel : Nat)
    (ih : ∀ x y, depthTI x + depthTI y ≤ fuel → assignCoreF fuel x y = assignCore x y)
    (a b : TypeInfo) (hkk : a.kind = b.kind) (h : depthTI a + depthTI b ≤ fuel + 1) :
    sameKindAssignF fuel a b = sameKindAssign a b := by
  cases a with
  | Simple s1 =>
    simp only [TypeInfo.kind] at hkk
    obtain ⟨s2, rfl⟩ := kind_inv_Simple b hkk.symm
    simp [sameKindAssignF, sameKindAssign]
  | Observable i1 =>
    simp only [TypeInfo.kind] at hkk
    obtain ⟨i2, rfl⟩ := kind_inv_Observable b hkk.symm
    simp [sameKindAssignF, sameKindAssign]
  | Optional i1 =>
    simp only [TypeInfo.kind] at hkk
    obtain ⟨i2, rfl⟩ := kind_inv_Optional b hkk.symm
    simp [sameKindAssignF, sameKindAssign]
  | Nullable i1 =>
    simp only [TypeInfo.kind] at hkk
    obtain ⟨i2, rfl⟩ := kind_inv_Nullable b hkk.symm
    simp [sameKindAssignF, sameKindAssign]
  | Class n1 c1 m1 p1 =>
    simp only [TypeInfo.kind] at hkk
    obtain ⟨n2, c2, m2, p2, rfl⟩ := kind_inv_Class b hkk.symm
    simp [sameKindAssignF, sameKindAssign]
  | Interface n1 p1 =>
    simp only [TypeInfo.kind] at hkk
    obtain ⟨n2, p2, rfl⟩ := kind_inv_Interface b hkk.symm
    simp [sameKindAssignF, sameKindAssign]
  | Generic n1 tps1 =>
    simp only [TypeInfo.kind] at hkk
    obtain ⟨n2, tps2, rfl⟩ := kind_inv_Generic b hkk.symm
    simp [sameKindAssignF, sameKindAssign]
  | Enum n1 vs1 =>
    simp only [TypeInfo.kind] at hkk
    obtain ⟨n2, vs2, rfl⟩ := kind_inv_Enum b hkk.symm
    simp [sameKindAssignF, sameKindAssign]
  | IndexSignature k1 v1 =>
    simp only [TypeInfo.kind] at hkk
    obtain ⟨k2, v2, rfl⟩ := kind_inv_IndexSignature b hkk.symm
    simp [sameKindAssignF, sameKindAssign]
  | Conditional c1 e1 t1 f1 =>
    simp only [TypeInfo.kind] at hkk
    obtain ⟨c2, e2, t2, f2, rfl⟩ := kind_inv_Conditional b hkk.symm
    simp [sameKindAssignF, sameKindAssign]
  | Mapped k1 v1 =>
    simp only [TypeInfo.kind] at hkk
    obtain ⟨k2, v2, rfl⟩ := kind_inv_Mapped b hkk.symm
    simp [sameKindAssignF, sameKindAssign]
  | TemplateLiteral parts1 ts1 =>
    simp only [TypeInfo.kind] at hkk
    obtain ⟨parts2, ts2, rfl⟩ := kind_inv_TemplateLiteral b hkk.symm
    simp [sameKindAssignF, sameKindAssign]
  | unknown =>
    simp only [TypeInfo.kind] at hkk
    have hb := kind_inv_unknown b hkk.symm
    subst hb
    simp [sameKindAssignF, sameKindAssign]
  | Primitive p1 =>
    simp only [TypeInfo.kind] at hkk
    obtain ⟨p2, rfl⟩ := kind_inv_Primitive b hkk.symm
    rw [sameKindAssignF, sameKindAssign]
  | Literal v1 =>
    simp only [TypeInfo.kind] at hkk
    obtain ⟨v2, rfl⟩ := kind_inv_Literal b hkk.symm
    rw [sameKindAssignF, sameKindAssign]
  | Union ts1 =>
    simp only [TypeInfo.kind] at hkk
    obtain ⟨ts2, rfl⟩ := kind_inv_Union b hkk.symm
    rw [sameKindAssignF, sameKindAssign]
    refine anyTargetCoveredF_spec fuel ih ts1 ts2 ?_
    intro s hs t ht
    have h1 := depthTI_le_depthList hs
    have h2 := depthTI_le_depthList ht
    simp only [depthTI_Union] at h
    omega
  | Intersection ts1 =>
    simp only [TypeInfo.kind] at hkk
    obtain ⟨ts2, rfl⟩ := kind_inv_Intersection b hkk.symm
    rw [sameKindAssignF, sameKindAssign]
    refine allTargetsCoveredF_spec fuel ih ts1 ts2 ?_
    intro s hs t ht
    have h1 := depthTI_le_depthList hs
    have h2 := depthTI_le_depthList ht
    simp only [depthTI_Intersection] at h
    omega
  | Array i1 =>
    simp only [TypeInfo.kind] at hkk
    obtain ⟨i2, rfl⟩ := kind_inv_Array b hkk.symm
    rw [sameKindAssignF, sameKindAssign]
    exact ih i1 i2 (by simp only [depthTI_Array] at h; omega)
  | ReadonlyArray i1 =>
    simp only [TypeInfo.kind] at hkk
    obtain ⟨i2, rfl⟩ := kind_inv_ReadonlyArray b hkk.symm
    rw [sameKindAssignF, sameKindAssign]
    exact ih i1 i2 (by simp only [depthTI_ReadonlyArray] at h; omega)
  | Set i1 =>
    simp only [TypeInfo.kind] at hkk
    obtain ⟨i2, rfl⟩ := kind_inv_Set b hkk.symm
    rw [sameKindAssignF, sameKindAssign]
    exact ih i1 i2 (by simp only [depthTI_Set] at h; omega)
  | Promise i1 =>
    simp only [TypeInfo.kind] at hkk
    obtain ⟨i2, rfl⟩ := kind_inv_Promise b hkk.symm
    rw [sameKindAssignF, sameKindAssign]
    exact ih i1 i2 (by simp only [depthTI_Promise] at h; omega)
  | PromiseLike i1 =>
    simp only [TypeInfo.kind] at hkk
    obtain ⟨i2, rfl⟩ := kind_inv_PromiseLike b hkk.symm
    rw [sameKindAssignF, sameKindAssign]
    exact ih i1 i2 (by simp only [depthTI_PromiseLike] at h; omega)
  | Map k1 v1 =>
    simp only [TypeInfo.kind] at hkk
    obtain ⟨k2, v2, rfl⟩ := kind_inv_Map b hkk.symm
    rw [sameKindAssignF, sameKindAssign,
      ih k1 k2 (by simp only [depthTI_Map] at h; omega),
      ih v1 v2 (by simp only [depthTI_Map] at h; omega)]
  | Record k1 v1 =>
    simp only [TypeInfo.kind] at hkk
    obtain ⟨k2, v2, rfl⟩ := kind_inv_Record b hkk.symm
    rw [sameKindAssignF, sameKindAssign,
      ih k1 k2 (by simp only [depthTI_Record] at h; omega),
      ih v1 v2 (by simp only [depthTI_Record] at h; omega)]
  | Function ps1 r1 =>
    simp only [TypeInfo.kind] at hkk
    obtain ⟨ps2, r2, rfl⟩ := kind_inv_Function b hkk.symm
    rw [sameKindAssignF, sameKindAssign,
      ih r1 r2 (by simp only [depthTI_Function] at h; omega),
      areParametersCompatibleF_spec fuel ih ps1 ps2 (fun p hp q hq => by
        have h1 := depthTI_le_depthList hp
        have h2 := depthTI_le_depthList hq
        simp only [depthTI_Function] at h
        omega)]
  | Tuple es1 =>
    simp only [TypeInfo.kind] at hkk
    obtain ⟨es2, rfl⟩ := kind_inv_Tuple b hkk.symm
    rw [sameKindAssignF, sameKindAssign,
      allAssign2F_spec fuel ih es1 es2 (fun p hp q hq => by
        have h1 := depthTI_le_depthList hp
        have h2 := depthTI_le_depthList hq
        simp only [depthTI_Tuple] at h
        omega)]
  | Object props1 =>
    simp only [TypeInfo.kind] at hkk
    obtain ⟨props2, rfl⟩ := kind_inv_Object b hkk.symm
    rw [sameKindAssignF, sameKindAssign]
    refine propsAssignF_spec fuel ih props1 props2 ?_
    intro kv1 h1 kv h2
    have hd1 := depthTI_le_depthProps h1
    have hd2 := depthTI_le_depthProps h2
    simp only [depthTI_Object] at h
    omega

set_option maxHeartbeats 4000000 in
theorem crossKindAssignF_Optional_eq (fuel : Nat) (i b2 : TypeInfo) :
    crossKindAssignF fuel (.Optional i) b2 = assignCoreF fuel i b2 := by
  rw [crossKindAssignF]

set_option maxHeartbeats 16000000 in
theorem crossF_spec (fuel : Nat)
    (ih : ∀ x y, depthTI x + depthTI y ≤ fuel → assignCoreF fuel x y = assignCore x y)
    (a b : TypeInfo) (hk : (a.kind == b.kind) = false) (h : depthTI a + depthTI b ≤ fuel + 1) :
    crossKindAssignF fuel a b = crossKindAssign a b := by
  rw [crossKindAssignF.eq_def]
  split <;>
    first
    | (simp only [TypeInfo.kind] at hk
       exact absurd hk (by decide))
    | (rw [crossKindAssign]
       refine ih _ _ ?_
       simp only [depthTI_Optional] at h
       omega)
    | (rw [crossKindAssign]
       congr 1
       refine ih _ _ ?_
       simp only [depthTI_Nullable] at h
       omega
       all_goals rfl)
    | (rw [crossKindAssign]
       refine anyUnionMemberF_spec fuel ih _ _ ?_
       intro x hx
       have hdx := depthTI_le_depthList hx
       simp at h ⊢
       omega
       all_goals simp_all)
    | (rw [crossKindAssign]
       refine allIntersectionMembersF_spec fuel ih _ _ ?_
       intro s hs
       have hds := depthTI_le_depthList hs
       simp at h ⊢
       omega
       all_goals simp_all)
    | (rw [crossKindAssign]
       all_goals first | assumption | simp_all)

theorem assignF_spec :
    ∀ (fuel : Nat) (a b : TypeInfo), depthTI a + depthTI b ≤ fuel →
      assignCoreF fuel a b = assignCore a b := by
  intro fuel
  induction fuel with
  | zero =>
    intro a b h
    have ha := one_le_depthTI a
    have hb := one_le_depthTI b
    omega
  | succ fuel ih =>
    intro a b h
    rw [assignCoreF_succ, assignCore]
    by_cases hk : (a.kind == b.kind) = true
    · rw [if_pos hk, if_pos hk]
      exact sameF_spec fuel ih a b (by simpa using hk) h
    · rw [Bool.not_eq_true] at hk
      rw [if_neg (by simp [hk]), if_neg (by simp [hk])]
      exact crossF_spec fuel ih a b hk h

/-- Claim C8 counterexample: for `source = Optional(Optional(string))` and
`target = Union[Union[string]]`, both of depth `3`, a recursion budget equal
to the depth of either supplied tree (`3` nested calls) is exhausted before
the walk completes (the fueled run returns the out-of-fuel sentinel `false`),
while the full computation returns `true`: the recursion depth of
`isAssignableTo` exceeds the depth of each supplied tree, interleaving
descents into both. -/
theorem claimC8_counterexample :
    assignCoreF 3 (.Optional (.Optional (.Primitive .string)))
        (.Union [.Union [.Primitive .string]]) = false
    ∧ assignCore (.Optional (.Optional (.Primitive .string)))
        (.Union [.Union [.Primitive .string]]) = true
    ∧ depthTI (.Optional (.Optional (.Primitive .string))) = 3
    ∧ depthTI (.Union [.Union [.Primitive .string]]) = 3 := by
  refine ⟨?_, ?_, by simp, by simp⟩
  · simp [assignCoreF_succ, crossKindAssignF, TypeInfo.kind]
  · simp [assignCore, crossKindAssign, TypeInfo.kind]

/-- Claim C8 amended: the three recursive walks terminate on every finite
tree; a fuel budget equal to the tree's depth suffices for
`resolveDeepestType` and `printTypeTree`, and a budget equal to the sum of
the two trees' depths suffices for `isAssignableTo` (its recursion depth is
bounded by the sum, not by the depth of either supplied tree alone). -/
theorem claimC8_amended :
    (∀ (fuel : Nat) (t : TypeInfo), depthTI t ≤ fuel →
        resolveDeepestTypeF fuel (some t) = resolveDeepestType (some t))
    ∧ (∀ (fuel : Nat) (t : TypeInfo) (d : Nat), depthTI t ≤ fuel →
        printTypeTreeF fuel (some t) d = printTypeTree (some t) d)
    ∧ (∀ (fuel : Nat) (a b : TypeInfo), depthTI a + depthTI b ≤ fuel →
        assignCoreF fuel a b = assignCore a b) :=
  ⟨resolveF_spec, printF_spec, assignF_spec⟩

/-- Witness for the amended C8 at concrete inputs with exact fuel. -/
theorem claimC8_witness :
    resolveDeepestTypeF 1 (some (.Primitive .number)) =
      resolveDeepestType (some (.Primitive .number))
    ∧ printTypeTreeF 1 (some .unknown) 0 = printTypeTree (some .unknown) 0
    ∧ assignCoreF 2 (.Primitive .string) (.Primitive .string) =
        assignCore (.Primitive .string) (.Primitive .string) :=
  ⟨claimC8_amended.1 1 (.Primitive .number) (by simp),
   claimC8_amended.2.1 1 .unknown 0 (by simp),
   claimC8_amended.2.2 2 (.Primitive .string) (.Primitive .string) (by simp)⟩
